import Mathlib

/-!
Verification development for the gve virtual-ethernet driver control plane:
the admin command queue transport (gve_adminq.c) and the ethtool flow-rule
directory (gve_ethtool.c), shallowly embedded in Lean.

Device-visible registers and device-written memory are modelled as oracle
functions supplied to each operation: ecTrace n is the value returned by the
n-th read of the event-counter register during the call, and statusAt i is
the status word the device has written into ring slot i.  Counters are
modelled as Nat; they are 32-bit in the source but monotonically increase
and are never wrapped by the driver logic under study.
-/

/-! Linux errno values used by the driver (negated on return, as in C). -/

def EAGAIN : Int := 11
def ENOMEM : Int := 12
def EACCES : Int := 13
def EEXIST : Int := 17
def EINVAL : Int := 22
def ENOSPC : Int := 28
def ETIME : Int := 62
def EMSGSIZE : Int := 90
def EOPNOTSUPP : Int := 95
def ENOTRECOVERABLE : Int := 131

/-! Admin-queue status codes, from the device interface description (the
enum lives in the driver header, outside the two translated source files;
the individual values are opaque tags, only their identity matters). -/

def GVE_ADMINQ_COMMAND_UNSET : Nat := 0
def GVE_ADMINQ_COMMAND_PASSED : Nat := 1
def GVE_ADMINQ_COMMAND_ERROR_ABORTED : Nat := 0xFFFFFFF0
def GVE_ADMINQ_COMMAND_ERROR_ALREADY_EXISTS : Nat := 0xFFFFFFF1
def GVE_ADMINQ_COMMAND_ERROR_CANCELLED : Nat := 0xFFFFFFF2
def GVE_ADMINQ_COMMAND_ERROR_DATALOSS : Nat := 0xFFFFFFF3
def GVE_ADMINQ_COMMAND_ERROR_DEADLINE_EXCEEDED : Nat := 0xFFFFFFF4
def GVE_ADMINQ_COMMAND_ERROR_FAILED_PRECONDITION : Nat := 0xFFFFFFF5
def GVE_ADMINQ_COMMAND_ERROR_INTERNAL_ERROR : Nat := 0xFFFFFFF6
def GVE_ADMINQ_COMMAND_ERROR_INVALID_ARGUMENT : Nat := 0xFFFFFFF7
def GVE_ADMINQ_COMMAND_ERROR_NOT_FOUND : Nat := 0xFFFFFFF8
def GVE_ADMINQ_COMMAND_ERROR_OUT_OF_RANGE : Nat := 0xFFFFFFF9
def GVE_ADMINQ_COMMAND_ERROR_PERMISSION_DENIED : Nat := 0xFFFFFFFA
def GVE_ADMINQ_COMMAND_ERROR_UNAUTHENTICATED : Nat := 0xFFFFFFFB
def GVE_ADMINQ_COMMAND_ERROR_RESOURCE_EXHAUSTED : Nat := 0xFFFFFFFC
def GVE_ADMINQ_COMMAND_ERROR_UNAVAILABLE : Nat := 0xFFFFFFFD
def GVE_ADMINQ_COMMAND_ERROR_UNIMPLEMENTED : Nat := 0xFFFFFFFE
def GVE_ADMINQ_COMMAND_ERROR_UNKNOWN_ERROR : Nat := 0xFFFFFFFF

def GVE_MAX_ADMINQ_EVENT_COUNTER_CHECK : Nat := 100

/-- gve_adminq_parse_err: translate a device status word to a kernel error
code.  The observability counter adminq_cmd_fail updated there is omitted. -/
def gve_adminq_parse_err (status : Nat) : Int :=
  if status = GVE_ADMINQ_COMMAND_PASSED then 0
  else if status = GVE_ADMINQ_COMMAND_UNSET then -EINVAL
  else if status = GVE_ADMINQ_COMMAND_ERROR_ABORTED ∨
          status = GVE_ADMINQ_COMMAND_ERROR_CANCELLED ∨
          status = GVE_ADMINQ_COMMAND_ERROR_DATALOSS ∨
          status = GVE_ADMINQ_COMMAND_ERROR_FAILED_PRECONDITION ∨
          status = GVE_ADMINQ_COMMAND_ERROR_UNAVAILABLE then -EAGAIN
  else if status = GVE_ADMINQ_COMMAND_ERROR_ALREADY_EXISTS ∨
          status = GVE_ADMINQ_COMMAND_ERROR_INTERNAL_ERROR ∨
          status = GVE_ADMINQ_COMMAND_ERROR_INVALID_ARGUMENT ∨
          status = GVE_ADMINQ_COMMAND_ERROR_NOT_FOUND ∨
          status = GVE_ADMINQ_COMMAND_ERROR_OUT_OF_RANGE ∨
          status = GVE_ADMINQ_COMMAND_ERROR_UNKNOWN_ERROR then -EINVAL
  else if status = GVE_ADMINQ_COMMAND_ERROR_DEADLINE_EXCEEDED then -ETIME
  else if status = GVE_ADMINQ_COMMAND_ERROR_PERMISSION_DENIED ∨
          status = GVE_ADMINQ_COMMAND_ERROR_UNAUTHENTICATED then -EACCES
  else if status = GVE_ADMINQ_COMMAND_ERROR_RESOURCE_EXHAUSTED then -ENOMEM
  else if status = GVE_ADMINQ_COMMAND_ERROR_UNIMPLEMENTED then -EOPNOTSUPP
  else -EINVAL

/-- Device oracle for one kick-and-wait call: ecTrace n is the n-th read of
the event-counter register (read 0 is the initial tail read), statusAt i is
the status word in ring slot i. -/
structure KickEnv where
  ecTrace : Nat → Nat
  statusAt : Nat → Nat

/-- The polling loop of gve_adminq_wait_for_cmd: up to fuel further reads of
the event-counter register, starting at read index start; returns whether a
read hit the target together with the last value read. -/
def pollEc (ec : Nat → Nat) (target : Nat) : Nat → Nat → Bool × Nat
  | start, 0 => (false, ec (start - 1))
  | start, fuel + 1 =>
    if ec start = target then (true, ec start)
    else pollEc ec target (start + 1) fuel

/-- The drain loop of gve_adminq_kick_and_wait: walk the given slot counters,
parse each status, and return the first nonzero error (0 if none). -/
def gve_adminq_drain_errs (statusAt : Nat → Nat) (mask : Nat) : List Nat → Int
  | [] => 0
  | i :: is =>
    let err := gve_adminq_parse_err (statusAt (i &&& mask))
    if err = 0 then gve_adminq_drain_errs statusAt mask is else err

/-- gve_adminq_kick_and_wait: read the tail, kick the doorbell with the
producer count, poll the event counter, then drain statuses of slots
tail..head-1.  First component is the returned error code; the second is the
event-counter value last observed on the device (ghost observability). -/
def gve_adminq_kick_and_wait (env : KickEnv) (prodCnt mask : Nat) : Int × Nat :=
  let tail := env.ecTrace 0
  let head := prodCnt
  let w := pollEc env.ecTrace head 1 GVE_MAX_ADMINQ_EVENT_COUNTER_CHECK
  if w.1 = false then (-ENOTRECOVERABLE, w.2)
  else (gve_adminq_drain_errs env.statusAt mask (List.range' tail (head - tail)), w.2)

theorem gve_adminq_parse_err_eq_zero_iff (s : Nat) :
    gve_adminq_parse_err s = 0 ↔ s = GVE_ADMINQ_COMMAND_PASSED := by
  unfold gve_adminq_parse_err
  split_ifs with h1 h2 h3 h4 h5 h6 h7 h8 <;> simp_all <;> decide

theorem pollEc_true_eq (ec : Nat → Nat) (target : Nat) :
    ∀ fuel start, (pollEc ec target start fuel).1 = true →
      (pollEc ec target start fuel).2 = target := by
  intro fuel
  induction fuel with
  | zero => intro start h; simp [pollEc] at h
  | succ n ih =>
    intro start h
    by_cases hc : ec start = target
    · simp [pollEc, hc]
    · simp only [pollEc, if_neg hc] at h ⊢
      exact ih (start + 1) h

theorem gve_adminq_drain_errs_eq_find (statusAt : Nat → Nat) (mask : Nat)
    (l : List Nat) :
    gve_adminq_drain_errs statusAt mask l =
      match l.find? (fun i => statusAt (i &&& mask) != GVE_ADMINQ_COMMAND_PASSED) with
      | none => 0
      | some j => gve_adminq_parse_err (statusAt (j &&& mask)) := by
  induction l with
  | nil => rfl
  | cons i is ih =>
    simp only [gve_adminq_drain_errs, List.find?_cons]
    by_cases h : statusAt (i &&& mask) = GVE_ADMINQ_COMMAND_PASSED
    · have hz : gve_adminq_parse_err (statusAt (i &&& mask)) = 0 :=
        (gve_adminq_parse_err_eq_zero_iff _).mpr h
      have hb : (statusAt (i &&& mask) != GVE_ADMINQ_COMMAND_PASSED) = false := by
        simp [h]
      rw [hz, hb]
      simpa using ih
    · have hz : ¬ gve_adminq_parse_err (statusAt (i &&& mask)) = 0 :=
        fun hc => h ((gve_adminq_parse_err_eq_zero_iff _).mp hc)
      have hb : (statusAt (i &&& mask) != GVE_ADMINQ_COMMAND_PASSED) = true := by
        simp [h]
      rw [hb]
      simp [hz]

/-- Claim C1 (amended): whenever the completion wait observes the event
counter reach the producer count within its retry bound, kick-and-wait
leaves the observed event counter equal to the producer (ring fully
drained) and returns the error translation of the first non-success status
among the slots issued since the last flush, in counter order (0 when every
such status is PASSED).  The unamended claim also asserted this on the
timeout path, where it fails. -/
theorem gve_adminq_kick_and_wait_spec (env : KickEnv) (prodCnt mask : Nat)
    (h : (pollEc env.ecTrace prodCnt 1 GVE_MAX_ADMINQ_EVENT_COUNTER_CHECK).1 = true) :
    (gve_adminq_kick_and_wait env prodCnt mask).2 = prodCnt ∧
    (gve_adminq_kick_and_wait env prodCnt mask).1 =
      (match (List.range' (env.ecTrace 0) (prodCnt - env.ecTrace 0)).find?
          (fun i => env.statusAt (i &&& mask) != GVE_ADMINQ_COMMAND_PASSED) with
       | none => 0
       | some j => gve_adminq_parse_err (env.statusAt (j &&& mask))) := by
  unfold gve_adminq_kick_and_wait
  simp only [h]
  constructor
  · simpa using pollEc_true_eq env.ecTrace prodCnt _ 1 h
  · simpa using gve_adminq_drain_errs_eq_find env.statusAt mask _

def kwRespond : KickEnv :=
  { ecTrace := fun n => if n = 0 then 0 else 2,
    statusAt := fun i =>
      if i = 1 then GVE_ADMINQ_COMMAND_ERROR_ABORTED else GVE_ADMINQ_COMMAND_PASSED }

theorem gve_adminq_kick_and_wait_spec_witness :
    (gve_adminq_kick_and_wait kwRespond 2 3).2 = 2 ∧
    (gve_adminq_kick_and_wait kwRespond 2 3).1 = -EAGAIN := by
  have h := gve_adminq_kick_and_wait_spec kwRespond 2 3 (by decide)
  refine ⟨h.1, ?_⟩
  rw [h.2]
  decide

def kwStuck : KickEnv :=
  { ecTrace := fun _ => 0, statusAt := fun _ => GVE_ADMINQ_COMMAND_PASSED }

/-- Claim C1 counterexample: a device whose event counter never reaches the
producer count.  Every status of the one outstanding slot is PASSED, so the
batch contains no non-success status, yet kick-and-wait returns the
unrecoverable-timeout error and the last event-counter value observed on
return is 0, not the producer count 1: contrary to the claim, the ring is
not fully drained on an error return. -/
theorem gve_adminq_kick_and_wait_cex :
    (gve_adminq_kick_and_wait kwStuck 1 3).1 = -ENOTRECOVERABLE ∧
    (gve_adminq_kick_and_wait kwStuck 1 3).2 ≠ 1 ∧
    ((List.range' (kwStuck.ecTrace 0) (1 - kwStuck.ecTrace 0)).all
      (fun i => kwStuck.statusAt (i &&& 3) == GVE_ADMINQ_COMMAND_PASSED)) = true := by
  decide

/-! The command ring state mutated by gve_adminq_issue_cmd.  The ring maps a
slot index to the command stored there; commands are modelled as opaque
words.  The per-opcode observability counters of the source are omitted. -/

structure AqState where
  prodCnt : Nat
  mask : Nat
  ring : Nat → Nat

/-- Device oracle for one issue call: the event-counter value returned by the
initial overflow-check read, the oracle for the embedded flush, and the
value returned by the recheck read after that flush. -/
structure IssueEnv where
  tail1 : Nat
  kick : KickEnv
  tail2 : Nat

/-- The write performed by gve_adminq_issue_cmd once room is available: the
command is copied into slot prodCnt and mask and the producer counter is
incremented. -/
def aqWriteCmd (st : AqState) (cmd : Nat) : AqState :=
  { st with
    ring := fun i => if i = st.prodCnt &&& st.mask then cmd else st.ring i,
    prodCnt := st.prodCnt + 1 }

/-- gve_adminq_issue_cmd: check for overflow against the event counter; if
full, flush once via kick-and-wait, propagate its error, recheck, and fail
with -ENOMEM if still full; otherwise write the command.  The third result
component counts the flushes performed (ghost observability). -/
def gve_adminq_issue_cmd (env : IssueEnv) (st : AqState) (cmd : Nat) :
    Int × AqState × Nat :=
  if (st.prodCnt + 1) &&& st.mask = env.tail1 &&& st.mask then
    if (gve_adminq_kick_and_wait env.kick st.prodCnt st.mask).1 = 0 then
      if (st.prodCnt + 1) &&& st.mask = env.tail2 &&& st.mask then
        (-ENOMEM, st, 1)
      else (0, aqWriteCmd st cmd, 1)
    else ((gve_adminq_kick_and_wait env.kick st.prodCnt st.mask).1, st, 1)
  else (0, aqWriteCmd st cmd, 0)

/-- Claim C2 (amended): when the ring-full predicate holds on the first
event-counter read, exactly one automatic flush is performed, otherwise
none; on any success the command has been written into slot producer and
mask and the producer counter incremented; on any error the state is
unchanged (the command is rejected with an error, never silently dropped);
if the flush itself fails its error is propagated without writing; if the
ring is still full on the recheck after a successful flush the result is
-ENOMEM; and in every remaining case the call succeeds.  The unamended
claim instead asserted that the command is always written when the ring is
not still full after the flush, which fails when the flush drains the ring
but reports a command error. -/
theorem gve_adminq_issue_cmd_spec (env : IssueEnv) (st : AqState) (cmd : Nat) :
    ((gve_adminq_issue_cmd env st cmd).2.2 =
      if (st.prodCnt + 1) &&& st.mask = env.tail1 &&& st.mask then 1 else 0) ∧
    ((gve_adminq_issue_cmd env st cmd).1 = 0 →
      (gve_adminq_issue_cmd env st cmd).2.1.prodCnt = st.prodCnt + 1 ∧
      (gve_adminq_issue_cmd env st cmd).2.1.ring (st.prodCnt &&& st.mask) = cmd) ∧
    ((gve_adminq_issue_cmd env st cmd).1 ≠ 0 →
      (gve_adminq_issue_cmd env st cmd).2.1 = st) ∧
    ((st.prodCnt + 1) &&& st.mask = env.tail1 &&& st.mask →
      (gve_adminq_kick_and_wait env.kick st.prodCnt st.mask).1 ≠ 0 →
      (gve_adminq_issue_cmd env st cmd).1 =
        (gve_adminq_kick_and_wait env.kick st.prodCnt st.mask).1) ∧
    ((st.prodCnt + 1) &&& st.mask = env.tail1 &&& st.mask →
      (gve_adminq_kick_and_wait env.kick st.prodCnt st.mask).1 = 0 →
      (st.prodCnt + 1) &&& st.mask = env.tail2 &&& st.mask →
      (gve_adminq_issue_cmd env st cmd).1 = -ENOMEM) ∧
    (((st.prodCnt + 1) &&& st.mask ≠ env.tail1 &&& st.mask ∨
       ((gve_adminq_kick_and_wait env.kick st.prodCnt st.mask).1 = 0 ∧
        (st.prodCnt + 1) &&& st.mask ≠ env.tail2 &&& st.mask)) →
      (gve_adminq_issue_cmd env st cmd).1 = 0) := by
  by_cases h1 : (st.prodCnt + 1) &&& st.mask = env.tail1 &&& st.mask
  · by_cases h2 : (gve_adminq_kick_and_wait env.kick st.prodCnt st.mask).1 = 0
    · by_cases h3 : (st.prodCnt + 1) &&& st.mask = env.tail2 &&& st.mask
      · have hr : gve_adminq_issue_cmd env st cmd = (-ENOMEM, st, 1) := by
          unfold gve_adminq_issue_cmd
          rw [if_pos h1, if_pos h2, if_pos h3]
        refine ⟨by rw [hr]; simp [h1], ?_, ?_, ?_, ?_, ?_⟩
        · rw [hr]
          intro h
          have hz : (-ENOMEM : Int) = 0 := h
          exact absurd hz (by decide)
        · intro _; rw [hr]
        · intro _ hk; exact absurd h2 hk
        · intro _ _ _; rw [hr]
        · rintro (hc | ⟨_, hc⟩)
          · exact absurd h1 hc
          · exact absurd h3 hc
      · have hr : gve_adminq_issue_cmd env st cmd = (0, aqWriteCmd st cmd, 1) := by
          unfold gve_adminq_issue_cmd
          rw [if_pos h1, if_pos h2, if_neg h3]
        refine ⟨by rw [hr]; simp [h1], ?_, ?_, ?_, ?_, ?_⟩
        · intro _; rw [hr]; exact ⟨rfl, by simp [aqWriteCmd]⟩
        · intro hne; exact absurd (show (gve_adminq_issue_cmd env st cmd).1 = 0 by
            rw [hr]) hne
        · intro _ hk; exact absurd h2 hk
        · intro _ _ hf; exact absurd hf h3
        · intro _; rw [hr]
    · have hr : gve_adminq_issue_cmd env st cmd =
          ((gve_adminq_kick_and_wait env.kick st.prodCnt st.mask).1, st, 1) := by
        unfold gve_adminq_issue_cmd
        rw [if_pos h1, if_neg h2]
      refine ⟨by rw [hr]; simp [h1], ?_, ?_, ?_, ?_, ?_⟩
      · intro h; rw [hr] at h; exact absurd h h2
      · intro _; rw [hr]
      · intro _ _; rw [hr]
      · intro _ hk; exact absurd hk h2
      · rintro (hc | ⟨hk, _⟩)
        · exact absurd h1 hc
        · exact absurd hk h2
  · have hr : gve_adminq_issue_cmd env st cmd = (0, aqWriteCmd st cmd, 0) := by
      unfold gve_adminq_issue_cmd
      rw [if_neg h1]
    refine ⟨by rw [hr]; simp [h1], ?_, ?_, ?_, ?_, ?_⟩
    · intro _; rw [hr]; exact ⟨rfl, by simp [aqWriteCmd]⟩
    · intro hne; exact absurd (show (gve_adminq_issue_cmd env st cmd).1 = 0 by
        rw [hr]) hne
    · intro hf; exact absurd hf h1
    · intro hf; exact absurd hf h1
    · intro _; rw [hr]

def issueEnvW : IssueEnv := { tail1 := 3, kick := kwStuck, tail2 := 0 }

def aqStW : AqState := { prodCnt := 0, mask := 3, ring := fun _ => 0 }

theorem gve_adminq_issue_cmd_spec_witness :
    (gve_adminq_issue_cmd issueEnvW aqStW 42).2.1.prodCnt = 1 ∧
    (gve_adminq_issue_cmd issueEnvW aqStW 42).2.1.ring (0 &&& 3) = 42 := by
  have h := gve_adminq_issue_cmd_spec issueEnvW aqStW 42
  have h0 : (gve_adminq_issue_cmd issueEnvW aqStW 42).1 = 0 := by decide
  exact (h.2.1 h0)

/-- Device oracle for the flush inside the C2 counterexample: the drain
tail read returns 1, all later event-counter reads return 4 (the wait thus
succeeds at once and the ring is drained), and slot 1 holds an error
status, so the flush returns an error even though it drained the ring. -/
def issueEnvCex : IssueEnv :=
  { tail1 := 1,
    kick := { ecTrace := fun n => if n = 0 then 1 else 4,
              statusAt := fun i =>
                if i = 1 then GVE_ADMINQ_COMMAND_ERROR_ALREADY_EXISTS
                else GVE_ADMINQ_COMMAND_PASSED },
    tail2 := 4 }

def aqStCex : AqState := { prodCnt := 4, mask := 3, ring := fun _ => 0 }

/-- Claim C2 counterexample: the ring is full, the single automatic flush
succeeds in draining it (the wait observes the event counter reach the
producer, and the post-flush recheck finds the ring no longer full), yet
the call returns the error of a drained command instead of writing the new
command: the producer counter stays 4 and the target slot is untouched,
contrary to the claim that the command is written whenever the ring is not
still full after the flush. -/
theorem gve_adminq_issue_cmd_cex :
    ((aqStCex.prodCnt + 1) &&& aqStCex.mask = issueEnvCex.tail1 &&& aqStCex.mask) ∧
    (gve_adminq_kick_and_wait issueEnvCex.kick aqStCex.prodCnt aqStCex.mask).2 =
      aqStCex.prodCnt ∧
    ((aqStCex.prodCnt + 1) &&& aqStCex.mask ≠ issueEnvCex.tail2 &&& aqStCex.mask) ∧
    (gve_adminq_issue_cmd issueEnvCex aqStCex 42).1 = -EINVAL ∧
    (gve_adminq_issue_cmd issueEnvCex aqStCex 42).2.1.prodCnt = 4 ∧
    (gve_adminq_issue_cmd issueEnvCex aqStCex 42).2.1.ring (4 &&& 3) = 0 := by
  decide

/-! Device option negotiator.  A device descriptor is a byte blob; the model
keeps the two header fields the parser reads (total_length and
num_device_options) and views the rest of the blob through two accessors:
optionAt o is the TLV option header located at byte offset o from the start
of the descriptor, payloadAt o the option payload located at byte offset o.
Struct sizes, option ids and required-feature masks come from the driver
header (outside the two translated source files); the ids are opaque
distinct tags and every required-feature mask is zero there. -/

structure GveDeviceOption where
  option_id : Nat
  option_length : Nat
  required_features_mask : Nat
deriving DecidableEq

structure GveOptionPayload where
  supported_features_mask : Nat := 0
  tx_comp_ring_entries : Nat := 0
  rx_buff_ring_entries : Nat := 0
  tx_pages_per_qpl : Nat := 0
  rx_pages_per_qpl : Nat := 0
  max_mtu : Nat := 0
  packet_buffer_size : Nat := 0
  header_buffer_size : Nat := 0
  max_num_rules : Nat := 0
deriving DecidableEq

structure DescMem where
  total_length : Nat
  num_device_options : Nat
  optionAt : Nat → GveDeviceOption
  payloadAt : Nat → GveOptionPayload

def GVE_DEV_OPT_ID_GQI_RAW_ADDRESSING : Nat := 0x1
def GVE_DEV_OPT_ID_GQI_RDA : Nat := 0x2
def GVE_DEV_OPT_ID_GQI_QPL : Nat := 0x3
def GVE_DEV_OPT_ID_DQO_RDA : Nat := 0x4
def GVE_DEV_OPT_ID_DQO_QPL : Nat := 0x7
def GVE_DEV_OPT_ID_JUMBO_FRAMES : Nat := 0x8
def GVE_DEV_OPT_ID_BUFFER_SIZES : Nat := 0xa
def GVE_DEV_OPT_ID_FLOW_STEERING : Nat := 0xb

def GVE_DEV_OPT_REQ_FEAT_MASK_GQI_RAW_ADDRESSING : Nat := 0
def GVE_DEV_OPT_REQ_FEAT_MASK_GQI_RDA : Nat := 0
def GVE_DEV_OPT_REQ_FEAT_MASK_GQI_QPL : Nat := 0
def GVE_DEV_OPT_REQ_FEAT_MASK_DQO_RDA : Nat := 0
def GVE_DEV_OPT_REQ_FEAT_MASK_DQO_QPL : Nat := 0
def GVE_DEV_OPT_REQ_FEAT_MASK_JUMBO_FRAMES : Nat := 0
def GVE_DEV_OPT_REQ_FEAT_MASK_BUFFER_SIZES : Nat := 0
def GVE_DEV_OPT_REQ_FEAT_MASK_FLOW_STEERING : Nat := 0

def GVE_DEV_OPT_LEN_GQI_RAW_ADDRESSING : Nat := 0

def sizeof_gve_device_option : Nat := 8
def sizeof_gve_device_descriptor : Nat := 40
def sizeof_gve_device_option_gqi_rda : Nat := 4
def sizeof_gve_device_option_gqi_qpl : Nat := 4
def sizeof_gve_device_option_dqo_rda : Nat := 8
def sizeof_gve_device_option_dqo_qpl : Nat := 8
def sizeof_gve_device_option_jumbo_frames : Nat := 8
def sizeof_gve_device_option_buffer_sizes : Nat := 8
def sizeof_gve_device_option_flow_steering : Nat := 8

/-- Queue format values of the enum in the driver header. -/
def GVE_QUEUE_FORMAT_UNSPECIFIED : Nat := 0
def GVE_GQI_RDA_FORMAT : Nat := 1
def GVE_GQI_QPL_FORMAT : Nat := 2
def GVE_DQO_RDA_FORMAT : Nat := 3
def GVE_DQO_QPL_FORMAT : Nat := 4

/-- The fields of the driver context written by the option parser. -/
structure PrivNeg where
  queue_format : Nat
  ethtool_enable_header_split : Bool
deriving DecidableEq

/-- The option out-parameters of gve_process_device_options: for each
recognized option kind, the byte offset of its recorded payload (the source
stores the pointer one past the option header). -/
structure DevOpts where
  dev_op_gqi_rda : Option Nat := none
  dev_op_gqi_qpl : Option Nat := none
  dev_op_dqo_rda : Option Nat := none
  dev_op_jumbo_frames : Option Nat := none
  dev_op_buffer_sizes : Option Nat := none
  dev_op_flow_steering : Option Nat := none
  dev_op_dqo_qpl : Option Nat := none
deriving DecidableEq

def gveNullDevOpts : DevOpts := {}

/-- gve_get_next_option: offset of the node after the option at off, or none
when its computed end would exceed the declared total length. -/
def gve_get_next_option (mem : DescMem) (off : Nat) : Option Nat :=
  let option_end := off + sizeof_gve_device_option + (mem.optionAt off).option_length
  if option_end > mem.total_length then none else some option_end

/-- gve_parse_device_option on the option at offset off: dispatch on the
option id; on a length or feature-mask mismatch skip the option, otherwise
record the payload offset (and, for the raw-addressing marker option, pin
the GQI raw-addressing queue format; for buffer sizes, latch the
header-split ethtool default when a header buffer size is advertised). -/
def gve_parse_device_option (mem : DescMem) (off : Nat)
    (priv : PrivNeg) (ops : DevOpts) : PrivNeg × DevOpts :=
  let opt := mem.optionAt off
  let req_feat_mask := opt.required_features_mask
  let option_length := opt.option_length
  let option_id := opt.option_id
  let pay := off + sizeof_gve_device_option
  if option_id = GVE_DEV_OPT_ID_GQI_RAW_ADDRESSING then
    if option_length ≠ GVE_DEV_OPT_LEN_GQI_RAW_ADDRESSING ∨
       req_feat_mask ≠ GVE_DEV_OPT_REQ_FEAT_MASK_GQI_RAW_ADDRESSING then (priv, ops)
    else ({ priv with queue_format := GVE_GQI_RDA_FORMAT }, ops)
  else if option_id = GVE_DEV_OPT_ID_GQI_RDA then
    if option_length < sizeof_gve_device_option_gqi_rda ∨
       req_feat_mask ≠ GVE_DEV_OPT_REQ_FEAT_MASK_GQI_RDA then (priv, ops)
    else (priv, { ops with dev_op_gqi_rda := some pay })
  else if option_id = GVE_DEV_OPT_ID_GQI_QPL then
    if option_length < sizeof_gve_device_option_gqi_qpl ∨
       req_feat_mask ≠ GVE_DEV_OPT_REQ_FEAT_MASK_GQI_QPL then (priv, ops)
    else (priv, { ops with dev_op_gqi_qpl := some pay })
  else if option_id = GVE_DEV_OPT_ID_DQO_RDA then
    if option_length < sizeof_gve_device_option_dqo_rda ∨
       req_feat_mask ≠ GVE_DEV_OPT_REQ_FEAT_MASK_DQO_RDA then (priv, ops)
    else (priv, { ops with dev_op_dqo_rda := some pay })
  else if option_id = GVE_DEV_OPT_ID_DQO_QPL then
    if option_length < sizeof_gve_device_option_dqo_qpl ∨
       req_feat_mask ≠ GVE_DEV_OPT_REQ_FEAT_MASK_DQO_QPL then (priv, ops)
    else (priv, { ops with dev_op_dqo_qpl := some pay })
  else if option_id = GVE_DEV_OPT_ID_JUMBO_FRAMES then
    if option_length < sizeof_gve_device_option_jumbo_frames ∨
       req_feat_mask ≠ GVE_DEV_OPT_REQ_FEAT_MASK_JUMBO_FRAMES then (priv, ops)
    else (priv, { ops with dev_op_jumbo_frames := some pay })
  else if option_id = GVE_DEV_OPT_ID_BUFFER_SIZES then
    if option_length < sizeof_gve_device_option_buffer_sizes ∨
       req_feat_mask ≠ GVE_DEV_OPT_REQ_FEAT_MASK_BUFFER_SIZES then (priv, ops)
    else
      (if (mem.payloadAt pay).header_buffer_size ≠ 0 then
         { priv with ethtool_enable_header_split := true }
       else priv,
       { ops with dev_op_buffer_sizes := some pay })
  else if option_id = GVE_DEV_OPT_ID_FLOW_STEERING then
    if option_length < sizeof_gve_device_option_flow_steering ∨
       req_feat_mask ≠ GVE_DEV_OPT_REQ_FEAT_MASK_FLOW_STEERING then (priv, ops)
    else (priv, { ops with dev_op_flow_steering := some pay })
  else (priv, ops)

/-- The loop of gve_process_device_options, with the number of remaining
options as fuel.  Besides the parser state it returns the list of option
headers visited, a ghost sequence used to state the claims. -/
def gve_process_device_options_go (mem : DescMem) :
    Nat → Nat → PrivNeg → DevOpts →
    Except Int (PrivNeg × DevOpts × List GveDeviceOption)
  | 0, _, priv, ops => .ok (priv, ops, [])
  | n + 1, off, priv, ops =>
    match gve_get_next_option mem off with
    | none => .error (-EINVAL)
    | some nextOff =>
      let pr := gve_parse_device_option mem off priv ops
      match gve_process_device_options_go mem n nextOff pr.1 pr.2 with
      | .error e => .error e
      | .ok (p, o, vs) => .ok (p, o, mem.optionAt off :: vs)

/-- gve_process_device_options: visit num_device_options TLV nodes starting
right after the descriptor header, failing with -EINVAL as soon as a node
would end past the descriptor total length. -/
def gve_process_device_options (mem : DescMem) (priv : PrivNeg) (ops : DevOpts) :
    Except Int (PrivNeg × DevOpts × List GveDeviceOption) :=
  gve_process_device_options_go mem mem.num_device_options
    sizeof_gve_device_descriptor priv ops

/-- Byte offset of the i-th option node when walking from offset off. -/
def optOffsetFrom (mem : DescMem) (off : Nat) : Nat → Nat
  | 0 => off
  | i + 1 =>
    optOffsetFrom mem off i + sizeof_gve_device_option +
      (mem.optionAt (optOffsetFrom mem off i)).option_length

/-- Byte offset of the i-th option node of the descriptor. -/
def optOffset (mem : DescMem) (i : Nat) : Nat :=
  optOffsetFrom mem sizeof_gve_device_descriptor i

theorem optOffsetFrom_shift (mem : DescMem) (off : Nat) :
    ∀ i, optOffsetFrom mem off (i + 1) =
      optOffsetFrom mem
        (off + sizeof_gve_device_option + (mem.optionAt off).option_length) i := by
  intro i
  induction i with
  | zero => rfl
  | succ n ih =>
    have hstep : optOffsetFrom mem off (n + 2) =
        optOffsetFrom mem off (n + 1) + sizeof_gve_device_option +
          (mem.optionAt (optOffsetFrom mem off (n + 1))).option_length := rfl
    rw [hstep, ih]
    rfl

theorem gve_process_go_ok (mem : DescMem) :
    ∀ (n off : Nat) (priv : PrivNeg) (ops : DevOpts),
      (∀ i, i < n → optOffsetFrom mem off (i + 1) ≤ mem.total_length) →
      ∃ p o, gve_process_device_options_go mem n off priv ops =
        .ok (p, o, (List.range n).map (fun i => mem.optionAt (optOffsetFrom mem off i))) := by
  intro n
  induction n with
  | zero => intro off priv ops _; exact ⟨priv, ops, rfl⟩
  | succ n ih =>
    intro off priv ops h
    have h0 : off + sizeof_gve_device_option + (mem.optionAt off).option_length ≤
        mem.total_length := h 0 (Nat.succ_pos n)
    have hnext : gve_get_next_option mem off =
        some (off + sizeof_gve_device_option + (mem.optionAt off).option_length) := by
      unfold gve_get_next_option
      rw [if_neg (Nat.not_lt.mpr h0)]
    have h2 : ∀ i, i < n →
        optOffsetFrom mem
          (off + sizeof_gve_device_option + (mem.optionAt off).option_length)
          (i + 1) ≤ mem.total_length := by
      intro i hi
      rw [← optOffsetFrom_shift]
      exact h (i + 1) (Nat.succ_lt_succ hi)
    obtain ⟨p, o, hrec⟩ := ih
      (off + sizeof_gve_device_option + (mem.optionAt off).option_length)
      (gve_parse_device_option mem off priv ops).1
      (gve_parse_device_option mem off priv ops).2 h2
    refine ⟨p, o, ?_⟩
    simp only [gve_process_device_options_go, hnext, hrec]
    have hlist : (List.range (n + 1)).map
          (fun i => mem.optionAt (optOffsetFrom mem off i)) =
        mem.optionAt off ::
          (List.range n).map (fun i => mem.optionAt
            (optOffsetFrom mem
              (off + sizeof_gve_device_option + (mem.optionAt off).option_length) i)) := by
      rw [List.range_succ_eq_map, List.map_cons, List.map_map]
      refine congrArg (mem.optionAt off :: ·) ?_
      refine List.map_congr_left ?_
      intro a _
      simp only [Function.comp_apply]
      rw [← optOffsetFrom_shift]
    rw [hlist]

theorem gve_process_go_error (mem : DescMem) :
    ∀ (n off : Nat) (priv : PrivNeg) (ops : DevOpts),
      (∃ i, i < n ∧ mem.total_length < optOffsetFrom mem off (i + 1)) →
      gve_process_device_options_go mem n off priv ops = .error (-EINVAL) := by
  intro n
  induction n with
  | zero =>
    rintro off priv ops ⟨i, hi, _⟩
    exact absurd hi (Nat.not_lt_zero i)
  | succ n ih =>
    rintro off priv ops ⟨i, hi, hv⟩
    by_cases h0 : mem.total_length <
        off + sizeof_gve_device_option + (mem.optionAt off).option_length
    · have hnext : gve_get_next_option mem off = none := by
        unfold gve_get_next_option
        rw [if_pos h0]
      simp [gve_process_device_options_go, hnext]
    · have hnext : gve_get_next_option mem off =
          some (off + sizeof_gve_device_option + (mem.optionAt off).option_length) := by
        unfold gve_get_next_option
        rw [if_neg h0]
      cases i with
      | zero =>
        exact absurd hv h0
      | succ j =>
        have hj : j < n := Nat.lt_of_succ_lt_succ hi
        have hv2 : mem.total_length <
            optOffsetFrom mem
              (off + sizeof_gve_device_option + (mem.optionAt off).option_length)
              (j + 1) := by
          rw [← optOffsetFrom_shift]
          exact hv
        have hrec := ih
          (off + sizeof_gve_device_option + (mem.optionAt off).option_length)
          (gve_parse_device_option mem off priv ops).1
          (gve_parse_device_option mem off priv ops).2 ⟨j, hj, hv2⟩
        simp only [gve_process_device_options_go, hnext, hrec]

/-- Claim C3: option parsing fails with the protocol error -EINVAL exactly
when some visited node of the chain has a computed end offset past the
declared total length (the whole descriptor is then rejected and no parsed
state is returned); and it succeeds, visiting exactly num_device_options
nodes in chain order, exactly when every visited node stays within the
total length. -/
theorem gve_process_device_options_spec (mem : DescMem) (priv : PrivNeg)
    (ops : DevOpts) :
    ((∀ i, i < mem.num_device_options →
        optOffset mem (i + 1) ≤ mem.total_length) ↔
      (∃ p o, gve_process_device_options mem priv ops =
        .ok (p, o, (List.range mem.num_device_options).map
          (fun i => mem.optionAt (optOffset mem i))))) ∧
    ((∃ i, i < mem.num_device_options ∧
        mem.total_length < optOffset mem (i + 1)) ↔
      gve_process_device_options mem priv ops = .error (-EINVAL)) := by
  constructor
  · constructor
    · intro h
      exact gve_process_go_ok mem mem.num_device_options
        sizeof_gve_device_descriptor priv ops h
    · rintro ⟨p, o, hok⟩
      by_contra hc
      push_neg at hc
      obtain ⟨i, hi, hv⟩ := hc
      have herr := gve_process_go_error mem mem.num_device_options
        sizeof_gve_device_descriptor priv ops ⟨i, hi, hv⟩
      rw [gve_process_device_options] at hok
      rw [herr] at hok
      exact Except.noConfusion hok
  · constructor
    · intro h
      exact gve_process_go_error mem mem.num_device_options
        sizeof_gve_device_descriptor priv ops h
    · intro herr
      by_contra hc
      push_neg at hc
      have hb : ∀ i, i < mem.num_device_options →
          optOffset mem (i + 1) ≤ mem.total_length := fun i hi => hc i hi
      obtain ⟨p, o, hok⟩ := gve_process_go_ok mem mem.num_device_options
        sizeof_gve_device_descriptor priv ops hb
      rw [gve_process_device_options] at herr
      rw [herr] at hok
      exact Except.noConfusion hok

def zeroPayload : GveOptionPayload := {}

/-- A two-option descriptor: a DQO RDA option at offset 40 followed by a
GQI QPL option at offset 56, total length exactly the chain end 68. -/
def descMemW : DescMem :=
  { total_length := 68,
    num_device_options := 2,
    optionAt := fun off =>
      if off = 40 then
        { option_id := GVE_DEV_OPT_ID_DQO_RDA, option_length := 8,
          required_features_mask := 0 }
      else if off = 56 then
        { option_id := GVE_DEV_OPT_ID_GQI_QPL, option_length := 4,
          required_features_mask := 0 }
      else { option_id := 0, option_length := 0, required_features_mask := 0 },
    payloadAt := fun _ => zeroPayload }

def privNegW : PrivNeg :=
  { queue_format := GVE_QUEUE_FORMAT_UNSPECIFIED, ethtool_enable_header_split := false }

theorem gve_process_device_options_spec_witness :
    ∃ p o, gve_process_device_options descMemW privNegW gveNullDevOpts =
      .ok (p, o, (List.range descMemW.num_device_options).map
        (fun i => descMemW.optionAt (optOffset descMemW i))) := by
  refine ((gve_process_device_options_spec descMemW privNegW gveNullDevOpts).1).mp ?_
  intro i hi
  have hi2 : i < 2 := hi
  interval_cases i <;> decide

/-- The option ids the parser dispatch recognizes. -/
def gveRecognizedOption (id : Nat) : Bool :=
  id == GVE_DEV_OPT_ID_GQI_RAW_ADDRESSING || id == GVE_DEV_OPT_ID_GQI_RDA ||
  id == GVE_DEV_OPT_ID_GQI_QPL || id == GVE_DEV_OPT_ID_DQO_RDA ||
  id == GVE_DEV_OPT_ID_DQO_QPL || id == GVE_DEV_OPT_ID_JUMBO_FRAMES ||
  id == GVE_DEV_OPT_ID_BUFFER_SIZES || id == GVE_DEV_OPT_ID_FLOW_STEERING

/-- Expected payload length per recognized option id (the struct size the
parser validates against; the raw-addressing marker option has no payload). -/
def gveExpectedLen (id : Nat) : Nat :=
  if id = GVE_DEV_OPT_ID_GQI_RAW_ADDRESSING then GVE_DEV_OPT_LEN_GQI_RAW_ADDRESSING
  else if id = GVE_DEV_OPT_ID_GQI_RDA then sizeof_gve_device_option_gqi_rda
  else if id = GVE_DEV_OPT_ID_GQI_QPL then sizeof_gve_device_option_gqi_qpl
  else if id = GVE_DEV_OPT_ID_DQO_RDA then sizeof_gve_device_option_dqo_rda
  else if id = GVE_DEV_OPT_ID_DQO_QPL then sizeof_gve_device_option_dqo_qpl
  else if id = GVE_DEV_OPT_ID_JUMBO_FRAMES then sizeof_gve_device_option_jumbo_frames
  else if id = GVE_DEV_OPT_ID_BUFFER_SIZES then sizeof_gve_device_option_buffer_sizes
  else if id = GVE_DEV_OPT_ID_FLOW_STEERING then sizeof_gve_device_option_flow_steering
  else 0

/-- Expected required-features mask per recognized option id. -/
def gveExpectedMask (id : Nat) : Nat :=
  if id = GVE_DEV_OPT_ID_GQI_RAW_ADDRESSING then GVE_DEV_OPT_REQ_FEAT_MASK_GQI_RAW_ADDRESSING
  else if id = GVE_DEV_OPT_ID_GQI_RDA then GVE_DEV_OPT_REQ_FEAT_MASK_GQI_RDA
  else if id = GVE_DEV_OPT_ID_GQI_QPL then GVE_DEV_OPT_REQ_FEAT_MASK_GQI_QPL
  else if id = GVE_DEV_OPT_ID_DQO_RDA then GVE_DEV_OPT_REQ_FEAT_MASK_DQO_RDA
  else if id = GVE_DEV_OPT_ID_DQO_QPL then GVE_DEV_OPT_REQ_FEAT_MASK_DQO_QPL
  else if id = GVE_DEV_OPT_ID_JUMBO_FRAMES then GVE_DEV_OPT_REQ_FEAT_MASK_JUMBO_FRAMES
  else if id = GVE_DEV_OPT_ID_BUFFER_SIZES then GVE_DEV_OPT_REQ_FEAT_MASK_BUFFER_SIZES
  else if id = GVE_DEV_OPT_ID_FLOW_STEERING then GVE_DEV_OPT_REQ_FEAT_MASK_FLOW_STEERING
  else 0

/-- Claim C4: for a recognized option id, the parser has an effect (records
the option or pins a format) only when the option length is at least the
expected struct size and the required-features mask equals the expected
mask for that id; any mismatch leaves the parser state untouched (the
option is skipped); and the chain walk never aborts because of a mismatched
option: the only abort is the -EINVAL total-length violation. -/
theorem gve_parse_device_option_spec (mem : DescMem) (off : Nat) (priv : PrivNeg)
    (ops : DevOpts) (e : Int) :
    (gveRecognizedOption (mem.optionAt off).option_id = true →
      gve_parse_device_option mem off priv ops ≠ (priv, ops) →
      gveExpectedLen (mem.optionAt off).option_id ≤ (mem.optionAt off).option_length ∧
      (mem.optionAt off).required_features_mask =
        gveExpectedMask (mem.optionAt off).option_id) ∧
    (gveRecognizedOption (mem.optionAt off).option_id = true →
      ¬(gveExpectedLen (mem.optionAt off).option_id ≤ (mem.optionAt off).option_length ∧
        (mem.optionAt off).required_features_mask =
          gveExpectedMask (mem.optionAt off).option_id) →
      gve_parse_device_option mem off priv ops = (priv, ops)) ∧
    (gve_process_device_options mem priv ops = .error e →
      e = -EINVAL ∧ ∃ i, i < mem.num_device_options ∧
        mem.total_length < optOffset mem (i + 1)) := by
  refine ⟨?_, ?_, ?_⟩
  · intro hrec hne
    simp only [gveRecognizedOption, Bool.or_eq_true, beq_iff_eq] at hrec
    simp only [gve_parse_device_option] at hne
    rcases hrec with ((((((h | h) | h) | h) | h) | h) | h) | h <;>
      rw [h] at hne ⊢ <;>
      norm_num [GVE_DEV_OPT_ID_GQI_RAW_ADDRESSING, GVE_DEV_OPT_ID_GQI_RDA,
        GVE_DEV_OPT_ID_GQI_QPL, GVE_DEV_OPT_ID_DQO_RDA, GVE_DEV_OPT_ID_DQO_QPL,
        GVE_DEV_OPT_ID_JUMBO_FRAMES, GVE_DEV_OPT_ID_BUFFER_SIZES,
        GVE_DEV_OPT_ID_FLOW_STEERING, GVE_DEV_OPT_LEN_GQI_RAW_ADDRESSING,
        GVE_DEV_OPT_REQ_FEAT_MASK_GQI_RAW_ADDRESSING,
        GVE_DEV_OPT_REQ_FEAT_MASK_GQI_RDA, GVE_DEV_OPT_REQ_FEAT_MASK_GQI_QPL,
        GVE_DEV_OPT_REQ_FEAT_MASK_DQO_RDA, GVE_DEV_OPT_REQ_FEAT_MASK_DQO_QPL,
        GVE_DEV_OPT_REQ_FEAT_MASK_JUMBO_FRAMES,
        GVE_DEV_OPT_REQ_FEAT_MASK_BUFFER_SIZES,
        GVE_DEV_OPT_REQ_FEAT_MASK_FLOW_STEERING, gveExpectedLen, gveExpectedMask,
        sizeof_gve_device_option_gqi_rda, sizeof_gve_device_option_gqi_qpl,
        sizeof_gve_device_option_dqo_rda, sizeof_gve_device_option_dqo_qpl,
        sizeof_gve_device_option_jumbo_frames, sizeof_gve_device_option_buffer_sizes,
        sizeof_gve_device_option_flow_steering] at hne ⊢ <;>
      (try split_ifs at hne with hrej) <;>
      first
        | exact absurd rfl hne
        | (push_neg at hrej; exact ⟨hrej.1, hrej.2⟩)
        | (push_neg at hrej; exact hrej.2)
        | (push_neg at hrej; exact hrej)
        | omega
  · intro hrec hinv
    simp only [gveRecognizedOption, Bool.or_eq_true, beq_iff_eq] at hrec
    simp only [gve_parse_device_option]
    rcases hrec with ((((((h | h) | h) | h) | h) | h) | h) | h <;>
      rw [h] at hinv ⊢ <;>
      norm_num [GVE_DEV_OPT_ID_GQI_RAW_ADDRESSING, GVE_DEV_OPT_ID_GQI_RDA,
        GVE_DEV_OPT_ID_GQI_QPL, GVE_DEV_OPT_ID_DQO_RDA, GVE_DEV_OPT_ID_DQO_QPL,
        GVE_DEV_OPT_ID_JUMBO_FRAMES, GVE_DEV_OPT_ID_BUFFER_SIZES,
        GVE_DEV_OPT_ID_FLOW_STEERING, GVE_DEV_OPT_LEN_GQI_RAW_ADDRESSING,
        GVE_DEV_OPT_REQ_FEAT_MASK_GQI_RAW_ADDRESSING,
        GVE_DEV_OPT_REQ_FEAT_MASK_GQI_RDA, GVE_DEV_OPT_REQ_FEAT_MASK_GQI_QPL,
        GVE_DEV_OPT_REQ_FEAT_MASK_DQO_RDA, GVE_DEV_OPT_REQ_FEAT_MASK_DQO_QPL,
        GVE_DEV_OPT_REQ_FEAT_MASK_JUMBO_FRAMES,
        GVE_DEV_OPT_REQ_FEAT_MASK_BUFFER_SIZES,
        GVE_DEV_OPT_REQ_FEAT_MASK_FLOW_STEERING, gveExpectedLen, gveExpectedMask,
        sizeof_gve_device_option_gqi_rda, sizeof_gve_device_option_gqi_qpl,
        sizeof_gve_device_option_dqo_rda, sizeof_gve_device_option_dqo_qpl,
        sizeof_gve_device_option_jumbo_frames, sizeof_gve_device_option_buffer_sizes,
        sizeof_gve_device_option_flow_steering] at hinv ⊢ <;>
      (try split_ifs with hrej) <;>
      first
        | rfl
        | (push_neg at hrej; exact absurd ⟨hrej.1, hrej.2⟩ hinv)
        | (push_neg at hrej; exact absurd hrej.2 hinv)
        | (push_neg at hrej; exact absurd hrej hinv)
        | omega
  · intro herr
    have hb : ∃ i, i < mem.num_device_options ∧
        mem.total_length < optOffset mem (i + 1) := by
      by_contra hc
      push_neg at hc
      obtain ⟨p, o, hok⟩ := gve_process_go_ok mem mem.num_device_options
        sizeof_gve_device_descriptor priv ops hc
      rw [gve_process_device_options] at herr
      rw [herr] at hok
      exact Except.noConfusion hok
    have he := gve_process_go_error mem mem.num_device_options
      sizeof_gve_device_descriptor priv ops hb
    rw [gve_process_device_options] at herr
    rw [herr] at he
    exact ⟨(Except.error.injEq _ _).mp he, hb⟩

/-- A descriptor whose single option is a GQI RDA option with a mismatched
required-features mask. -/
def descMemBadMask : DescMem :=
  { total_length := 52,
    num_device_options := 1,
    optionAt := fun off =>
      if off = 40 then
        { option_id := GVE_DEV_OPT_ID_GQI_RDA, option_length := 4,
          required_features_mask := 5 }
      else { option_id := 0, option_length := 0, required_features_mask := 0 },
    payloadAt := fun _ => zeroPayload }

theorem gve_parse_device_option_spec_witness :
    gve_parse_device_option descMemBadMask 40 privNegW gveNullDevOpts =
      (privNegW, gveNullDevOpts) := by
  have h := (gve_parse_device_option_spec descMemBadMask 40 privNegW gveNullDevOpts 0).2.1
  exact h (by decide) (by decide)

/-! Queue-format negotiation (gve_adminq_describe_device).  Validity of a
format option node, as the parser checks it. -/

def gveValidRawAddr (o : GveDeviceOption) : Bool :=
  o.option_id == GVE_DEV_OPT_ID_GQI_RAW_ADDRESSING &&
  o.option_length == GVE_DEV_OPT_LEN_GQI_RAW_ADDRESSING &&
  o.required_features_mask == GVE_DEV_OPT_REQ_FEAT_MASK_GQI_RAW_ADDRESSING

def gveValidGqiRda (o : GveDeviceOption) : Bool :=
  o.option_id == GVE_DEV_OPT_ID_GQI_RDA &&
  decide (sizeof_gve_device_option_gqi_rda ≤ o.option_length) &&
  o.required_features_mask == GVE_DEV_OPT_REQ_FEAT_MASK_GQI_RDA

def gveValidGqiQpl (o : GveDeviceOption) : Bool :=
  o.option_id == GVE_DEV_OPT_ID_GQI_QPL &&
  decide (sizeof_gve_device_option_gqi_qpl ≤ o.option_length) &&
  o.required_features_mask == GVE_DEV_OPT_REQ_FEAT_MASK_GQI_QPL

def gveValidDqoRda (o : GveDeviceOption) : Bool :=
  o.option_id == GVE_DEV_OPT_ID_DQO_RDA &&
  decide (sizeof_gve_device_option_dqo_rda ≤ o.option_length) &&
  o.required_features_mask == GVE_DEV_OPT_REQ_FEAT_MASK_DQO_RDA

def gveValidDqoQpl (o : GveDeviceOption) : Bool :=
  o.option_id == GVE_DEV_OPT_ID_DQO_QPL &&
  decide (sizeof_gve_device_option_dqo_qpl ≤ o.option_length) &&
  o.required_features_mask == GVE_DEV_OPT_REQ_FEAT_MASK_DQO_QPL

/-- The queue-format selection performed by gve_adminq_describe_device after
the option chain is parsed: DQO RDA, then DQO QPL, then GQI RDA, then a
format pinned to GQI RDA by the raw-addressing marker option, and GQI QPL
as the default. -/
def gve_describe_device_queue_format (priv : PrivNeg) (ops : DevOpts) : Nat :=
  if ops.dev_op_dqo_rda.isSome then GVE_DQO_RDA_FORMAT
  else if ops.dev_op_dqo_qpl.isSome then GVE_DQO_QPL_FORMAT
  else if ops.dev_op_gqi_rda.isSome then GVE_GQI_RDA_FORMAT
  else if priv.queue_format = GVE_GQI_RDA_FORMAT then GVE_GQI_RDA_FORMAT
  else GVE_GQI_QPL_FORMAT

/-- The supported-features mask picked by the same selection. -/
def gve_describe_device_supported_features_mask (mem : DescMem) (priv : PrivNeg)
    (ops : DevOpts) : Nat :=
  if ops.dev_op_dqo_rda.isSome then
    (mem.payloadAt (ops.dev_op_dqo_rda.getD 0)).supported_features_mask
  else if ops.dev_op_dqo_qpl.isSome then
    (mem.payloadAt (ops.dev_op_dqo_qpl.getD 0)).supported_features_mask
  else if ops.dev_op_gqi_rda.isSome then
    (mem.payloadAt (ops.dev_op_gqi_rda.getD 0)).supported_features_mask
  else if priv.queue_format = GVE_GQI_RDA_FORMAT then 0
  else
    match ops.dev_op_gqi_qpl with
    | some pay => (mem.payloadAt pay).supported_features_mask
    | none => 0

set_option maxHeartbeats 1600000 in
theorem gve_parse_dqo_rda_presence (mem : DescMem) (off : Nat) (priv : PrivNeg)
    (ops : DevOpts) :
    (gve_parse_device_option mem off priv ops).2.dev_op_dqo_rda.isSome =
      (ops.dev_op_dqo_rda.isSome || gveValidDqoRda (mem.optionAt off)) := by
  simp only [gve_parse_device_option]
  split_ifs with h1 h2 h3 h4 h5 h6 h7 h8 h9 h10 h11 h12 h13 h14 h15 h16 h17 <;>
    simp_all [gveValidDqoRda, GVE_DEV_OPT_ID_GQI_RAW_ADDRESSING,
      GVE_DEV_OPT_ID_GQI_RDA, GVE_DEV_OPT_ID_GQI_QPL, GVE_DEV_OPT_ID_DQO_RDA,
      GVE_DEV_OPT_ID_DQO_QPL, GVE_DEV_OPT_ID_JUMBO_FRAMES,
      GVE_DEV_OPT_ID_BUFFER_SIZES, GVE_DEV_OPT_ID_FLOW_STEERING,
      sizeof_gve_device_option_dqo_rda] <;>
    omega

set_option maxHeartbeats 1600000 in
theorem gve_parse_dqo_qpl_presence (mem : DescMem) (off : Nat) (priv : PrivNeg)
    (ops : DevOpts) :
    (gve_parse_device_option mem off priv ops).2.dev_op_dqo_qpl.isSome =
      (ops.dev_op_dqo_qpl.isSome || gveValidDqoQpl (mem.optionAt off)) := by
  simp only [gve_parse_device_option]
  split_ifs with h1 h2 h3 h4 h5 h6 h7 h8 h9 h10 h11 h12 h13 h14 h15 h16 h17 <;>
    simp_all [gveValidDqoQpl, GVE_DEV_OPT_ID_GQI_RAW_ADDRESSING,
      GVE_DEV_OPT_ID_GQI_RDA, GVE_DEV_OPT_ID_GQI_QPL, GVE_DEV_OPT_ID_DQO_RDA,
      GVE_DEV_OPT_ID_DQO_QPL, GVE_DEV_OPT_ID_JUMBO_FRAMES,
      GVE_DEV_OPT_ID_BUFFER_SIZES, GVE_DEV_OPT_ID_FLOW_STEERING,
      sizeof_gve_device_option_dqo_qpl] <;>
    omega

set_option maxHeartbeats 1600000 in
theorem gve_parse_gqi_rda_presence (mem : DescMem) (off : Nat) (priv : PrivNeg)
    (ops : DevOpts) :
    (gve_parse_device_option mem off priv ops).2.dev_op_gqi_rda.isSome =
      (ops.dev_op_gqi_rda.isSome || gveValidGqiRda (mem.optionAt off)) := by
  simp only [gve_parse_device_option]
  split_ifs with h1 h2 h3 h4 h5 h6 h7 h8 h9 h10 h11 h12 h13 h14 h15 h16 h17 <;>
    simp_all [gveValidGqiRda, GVE_DEV_OPT_ID_GQI_RAW_ADDRESSING,
      GVE_DEV_OPT_ID_GQI_RDA, GVE_DEV_OPT_ID_GQI_QPL, GVE_DEV_OPT_ID_DQO_RDA,
      GVE_DEV_OPT_ID_DQO_QPL, GVE_DEV_OPT_ID_JUMBO_FRAMES,
      GVE_DEV_OPT_ID_BUFFER_SIZES, GVE_DEV_OPT_ID_FLOW_STEERING,
      sizeof_gve_device_option_gqi_rda] <;>
    omega

set_option maxHeartbeats 1600000 in
theorem gve_parse_gqi_qpl_presence (mem : DescMem) (off : Nat) (priv : PrivNeg)
    (ops : DevOpts) :
    (gve_parse_device_option mem off priv ops).2.dev_op_gqi_qpl.isSome =
      (ops.dev_op_gqi_qpl.isSome || gveValidGqiQpl (mem.optionAt off)) := by
  simp only [gve_parse_device_option]
  split_ifs with h1 h2 h3 h4 h5 h6 h7 h8 h9 h10 h11 h12 h13 h14 h15 h16 h17 <;>
    simp_all [gveValidGqiQpl, GVE_DEV_OPT_ID_GQI_RAW_ADDRESSING,
      GVE_DEV_OPT_ID_GQI_RDA, GVE_DEV_OPT_ID_GQI_QPL, GVE_DEV_OPT_ID_DQO_RDA,
      GVE_DEV_OPT_ID_DQO_QPL, GVE_DEV_OPT_ID_JUMBO_FRAMES,
      GVE_DEV_OPT_ID_BUFFER_SIZES, GVE_DEV_OPT_ID_FLOW_STEERING,
      sizeof_gve_device_option_gqi_qpl] <;>
    omega

set_option maxHeartbeats 1600000 in
theorem gve_parse_queue_format (mem : DescMem) (off : Nat) (priv : PrivNeg)
    (ops : DevOpts) :
    (gve_parse_device_option mem off priv ops).1.queue_format =
      (if gveValidRawAddr (mem.optionAt off) then GVE_GQI_RDA_FORMAT
       else priv.queue_format) := by
  simp only [gve_parse_device_option]
  split_ifs with h1 h2 h3 h4 h5 h6 h7 h8 h9 h10 h11 h12 h13 h14 h15 h16 h17 <;>
    simp_all [gveValidRawAddr, GVE_DEV_OPT_ID_GQI_RAW_ADDRESSING,
      GVE_DEV_OPT_ID_GQI_RDA, GVE_DEV_OPT_ID_GQI_QPL, GVE_DEV_OPT_ID_DQO_RDA,
      GVE_DEV_OPT_ID_DQO_QPL, GVE_DEV_OPT_ID_JUMBO_FRAMES,
      GVE_DEV_OPT_ID_BUFFER_SIZES, GVE_DEV_OPT_ID_FLOW_STEERING,
      GVE_DEV_OPT_LEN_GQI_RAW_ADDRESSING] <;>
    omega

theorem gve_process_go_presence (mem : DescMem) :
    ∀ (n off : Nat) (priv : PrivNeg) (ops : DevOpts) (p : PrivNeg) (o : DevOpts)
      (vs : List GveDeviceOption),
      gve_process_device_options_go mem n off priv ops = .ok (p, o, vs) →
      (o.dev_op_dqo_rda.isSome = (ops.dev_op_dqo_rda.isSome || vs.any gveValidDqoRda)) ∧
      (o.dev_op_dqo_qpl.isSome = (ops.dev_op_dqo_qpl.isSome || vs.any gveValidDqoQpl)) ∧
      (o.dev_op_gqi_rda.isSome = (ops.dev_op_gqi_rda.isSome || vs.any gveValidGqiRda)) ∧
      (o.dev_op_gqi_qpl.isSome = (ops.dev_op_gqi_qpl.isSome || vs.any gveValidGqiQpl)) ∧
      (p.queue_format = if vs.any gveValidRawAddr then GVE_GQI_RDA_FORMAT
        else priv.queue_format) := by
  intro n
  induction n with
  | zero =>
    intro off priv ops p o vs h
    simp only [gve_process_device_options_go, Except.ok.injEq, Prod.mk.injEq] at h
    obtain ⟨rfl, rfl, rfl⟩ := h
    simp
  | succ n ih =>
    intro off priv ops p o vs h
    simp only [gve_process_device_options_go] at h
    cases hnext : gve_get_next_option mem off with
    | none =>
      simp only [hnext] at h
      exact Except.noConfusion h
    | some nextOff =>
      simp only [hnext] at h
      cases hrec : gve_process_device_options_go mem n nextOff
          (gve_parse_device_option mem off priv ops).1
          (gve_parse_device_option mem off priv ops).2 with
      | error e =>
        simp only [hrec] at h
        exact Except.noConfusion h
      | ok t =>
        obtain ⟨p2, o2, vs2⟩ := t
        simp only [hrec, Except.ok.injEq, Prod.mk.injEq] at h
        obtain ⟨rfl, rfl, rfl⟩ := h
        have hi := ih nextOff _ _ p2 o2 vs2 hrec
        refine ⟨?_, ?_, ?_, ?_, ?_⟩
        · rw [hi.1, gve_parse_dqo_rda_presence, List.any_cons, Bool.or_assoc]
        · rw [hi.2.1, gve_parse_dqo_qpl_presence, List.any_cons, Bool.or_assoc]
        · rw [hi.2.2.1, gve_parse_gqi_rda_presence, List.any_cons, Bool.or_assoc]
        · rw [hi.2.2.2.1, gve_parse_gqi_qpl_presence, List.any_cons, Bool.or_assoc]
        · rw [hi.2.2.2.2, gve_parse_queue_format, List.any_cons]
          cases hva : gveValidRawAddr (mem.optionAt off) <;>
            cases hvs : vs2.any gveValidRawAddr <;> simp_all

theorem perm_any_eq {α : Type} (f : α → Bool) {l1 l2 : List α} (h : l1.Perm l2) :
    l1.any f = l2.any f := by
  induction h with
  | nil => rfl
  | cons a h ih => simp [List.any_cons, ih]
  | swap a b l => simp [List.any_cons, Bool.or_left_comm]
  | trans h1 h2 ih1 ih2 => rw [ih1, ih2]

/-- Claim C5: the negotiated queue format follows the strict priority
DQO RDA over DQO QPL over GQI RDA over GQI QPL; the GQI QPL default is
taken only when no format option was recorded and no raw-addressing format
was already pinned; and the outcome is independent of the order in which
the options appeared in the chain: two parses of permuted chains from the
same initial driver state select the same format. -/
theorem gve_describe_device_format_priority :
    (∀ (priv : PrivNeg) (ops : DevOpts), ops.dev_op_dqo_rda.isSome = true →
      gve_describe_device_queue_format priv ops = GVE_DQO_RDA_FORMAT) ∧
    (∀ (priv : PrivNeg) (ops : DevOpts), ops.dev_op_dqo_rda.isSome = false →
      ops.dev_op_dqo_qpl.isSome = true →
      gve_describe_device_queue_format priv ops = GVE_DQO_QPL_FORMAT) ∧
    (∀ (priv : PrivNeg) (ops : DevOpts), ops.dev_op_dqo_rda.isSome = false →
      ops.dev_op_dqo_qpl.isSome = false → ops.dev_op_gqi_rda.isSome = true →
      gve_describe_device_queue_format priv ops = GVE_GQI_RDA_FORMAT) ∧
    (∀ (priv : PrivNeg) (ops : DevOpts), ops.dev_op_dqo_rda.isSome = false →
      ops.dev_op_dqo_qpl.isSome = false → ops.dev_op_gqi_rda.isSome = false →
      priv.queue_format ≠ GVE_GQI_RDA_FORMAT →
      gve_describe_device_queue_format priv ops = GVE_GQI_QPL_FORMAT) ∧
    (∀ (mem1 mem2 : DescMem) (priv p1 p2 : PrivNeg) (o1 o2 : DevOpts)
       (vs1 vs2 : List GveDeviceOption),
      gve_process_device_options mem1 priv gveNullDevOpts = .ok (p1, o1, vs1) →
      gve_process_device_options mem2 priv gveNullDevOpts = .ok (p2, o2, vs2) →
      vs1.Perm vs2 →
      gve_describe_device_queue_format p1 o1 =
        gve_describe_device_queue_format p2 o2) := by
  refine ⟨?_, ?_, ?_, ?_, ?_⟩
  · intro priv ops h; simp [gve_describe_device_queue_format, h]
  · intro priv ops h1 h2; simp [gve_describe_device_queue_format, h1, h2]
  · intro priv ops h1 h2 h3; simp [gve_describe_device_queue_format, h1, h2, h3]
  · intro priv ops h1 h2 h3 h4; simp [gve_describe_device_queue_format, h1, h2, h3, h4]
  · intro mem1 mem2 priv p1 p2 o1 o2 vs1 vs2 hok1 hok2 hperm
    have ha := gve_process_go_presence mem1 mem1.num_device_options
      sizeof_gve_device_descriptor priv gveNullDevOpts p1 o1 vs1 hok1
    have hb := gve_process_go_presence mem2 mem2.num_device_options
      sizeof_gve_device_descriptor priv gveNullDevOpts p2 o2 vs2 hok2
    have hn : gveNullDevOpts.dev_op_dqo_rda.isSome = false ∧
        gveNullDevOpts.dev_op_dqo_qpl.isSome = false ∧
        gveNullDevOpts.dev_op_gqi_rda.isSome = false ∧
        gveNullDevOpts.dev_op_gqi_qpl.isSome = false := by decide
    have e1 : o1.dev_op_dqo_rda.isSome = o2.dev_op_dqo_rda.isSome := by
      rw [ha.1, hb.1, perm_any_eq _ hperm]
    have e2 : o1.dev_op_dqo_qpl.isSome = o2.dev_op_dqo_qpl.isSome := by
      rw [ha.2.1, hb.2.1, perm_any_eq _ hperm]
    have e3 : o1.dev_op_gqi_rda.isSome = o2.dev_op_gqi_rda.isSome := by
      rw [ha.2.2.1, hb.2.2.1, perm_any_eq _ hperm]
    have e5 : p1.queue_format = p2.queue_format := by
      rw [ha.2.2.2.2, hb.2.2.2.2, perm_any_eq _ hperm]
    unfold gve_describe_device_queue_format
    rw [e1, e2, e3, e5]

/-- The descriptor of descMemW with the two options in the opposite order:
a GQI QPL option at offset 40 followed by a DQO RDA option at offset 52. -/
def descMemW2 : DescMem :=
  { total_length := 68,
    num_device_options := 2,
    optionAt := fun off =>
      if off = 40 then
        { option_id := GVE_DEV_OPT_ID_GQI_QPL, option_length := 4,
          required_features_mask := 0 }
      else if off = 52 then
        { option_id := GVE_DEV_OPT_ID_DQO_RDA, option_length := 8,
          required_features_mask := 0 }
      else { option_id := 0, option_length := 0, required_features_mask := 0 },
    payloadAt := fun _ => zeroPayload }

def devOptsW1 : DevOpts := { dev_op_dqo_rda := some 48, dev_op_gqi_qpl := some 64 }

def devOptsW2 : DevOpts := { dev_op_gqi_qpl := some 48, dev_op_dqo_rda := some 60 }

def visitedW1 : List GveDeviceOption :=
  [{ option_id := GVE_DEV_OPT_ID_DQO_RDA, option_length := 8, required_features_mask := 0 },
   { option_id := GVE_DEV_OPT_ID_GQI_QPL, option_length := 4, required_features_mask := 0 }]

def visitedW2 : List GveDeviceOption :=
  [{ option_id := GVE_DEV_OPT_ID_GQI_QPL, option_length := 4, required_features_mask := 0 },
   { option_id := GVE_DEV_OPT_ID_DQO_RDA, option_length := 8, required_features_mask := 0 }]

theorem gve_describe_device_format_priority_witness :
    gve_describe_device_queue_format privNegW devOptsW1 = GVE_DQO_RDA_FORMAT ∧
    gve_describe_device_queue_format privNegW devOptsW2 = GVE_DQO_RDA_FORMAT := by
  have h1 : gve_process_device_options descMemW privNegW gveNullDevOpts =
      .ok (privNegW, devOptsW1, visitedW1) := by rfl
  have h2 : gve_process_device_options descMemW2 privNegW gveNullDevOpts =
      .ok (privNegW, devOptsW2, visitedW2) := by rfl
  have hperm : visitedW1.Perm visitedW2 := List.Perm.swap _ _ _
  have heq := gve_describe_device_format_priority.2.2.2.2 descMemW descMemW2
    privNegW privNegW privNegW devOptsW1 devOptsW2 visitedW1 visitedW2 h1 h2 hperm
  have hfmt := gve_describe_device_format_priority.1 privNegW devOptsW1 (by decide)
  exact ⟨hfmt, by rw [← heq]; exact hfmt⟩

/-! Feature enablement (gve_enable_supported_features).  The driver tests
power-of-two-ness of a buffer size v with the bit trick v and v-1; the
following lemma connects that test with the arithmetic notion. -/

theorem nat_land_pred_eq_zero_iff :
    ∀ n : Nat, 0 < n → (n &&& (n - 1) = 0 ↔ ∃ k, n = 2 ^ k) := by
  intro n
  induction n using Nat.strong_induction_on with
  | _ n ih =>
    intro hn
    rcases Nat.even_or_odd n with ⟨m, hm⟩ | ⟨m, hm⟩
    · subst hm
      have hm1 : 0 < m := by omega
      have key : (m + m) &&& (m + m - 1) = 2 * (m &&& (m - 1)) := by
        apply Nat.eq_of_testBit_eq
        intro i
        cases i with
        | zero =>
          rw [Nat.testBit_and]
          simp only [Nat.testBit_zero]
          have h1 : (m + m) % 2 = 0 := by omega
          have h2 : 2 * (m &&& (m - 1)) % 2 = 0 := Nat.mul_mod_right 2 _
          rw [h1, h2]
          simp
        | succ j =>
          rw [Nat.testBit_and]
          simp only [Nat.testBit_add_one]
          have e1 : (m + m) / 2 = m := by omega
          have e2 : (m + m - 1) / 2 = m - 1 := by omega
          have e3 : 2 * (m &&& (m - 1)) / 2 = m &&& (m - 1) := by omega
          rw [e1, e2, e3, Nat.testBit_and]
      rw [key]
      constructor
      · intro h0
        have hx : m &&& (m - 1) = 0 := by omega
        obtain ⟨k, hk⟩ := (ih m (by omega) hm1).mp hx
        exact ⟨k + 1, by rw [hk, pow_succ]; ring⟩
      · rintro ⟨k, hk⟩
        cases k with
        | zero =>
          have : m + m = 1 := by simpa using hk
          omega
        | succ k2 =>
          have hp : (2 : Nat) ^ (k2 + 1) = 2 ^ k2 * 2 := pow_succ 2 k2
          have hm2 : m = 2 ^ k2 := by omega
          have hx := (ih m (by omega) hm1).mpr ⟨k2, hm2⟩
          omega
    · subst hm
      by_cases hm0 : m = 0
      · subst hm0
        constructor
        · intro _; exact ⟨0, by norm_num⟩
        · intro _; decide
      · constructor
        · intro h0
          exfalso
          have hbit : ∀ i, m.testBit i = false := by
            intro i
            have hc : ((2 * m + 1) &&& (2 * m + 1 - 1)).testBit (i + 1) =
                (0 : Nat).testBit (i + 1) := by rw [h0]
            rw [Nat.testBit_and] at hc
            simp only [Nat.testBit_add_one, Nat.zero_testBit] at hc
            have e1 : (2 * m + 1) / 2 = m := by omega
            have e2 : (2 * m + 1 - 1) / 2 = m := by omega
            rw [e1, e2] at hc
            simpa using hc
          have : m = 0 :=
            Nat.eq_of_testBit_eq (fun i => by rw [hbit i, Nat.zero_testBit])
          exact hm0 this
        · rintro ⟨k, hk⟩
          exfalso
          cases k with
          | zero =>
            have : 2 * m + 1 = 1 := by simpa using hk
            omega
          | succ j =>
            have hp : (2 : Nat) ^ (j + 1) = 2 ^ j * 2 := pow_succ 2 j
            omega

/-- A natural number is a power of two. -/
def IsPowTwo (n : Nat) : Prop := ∃ k, n = 2 ^ k

instance (n : Nat) : Decidable (IsPowTwo n) :=
  decidable_of_iff (0 < n ∧ n &&& (n - 1) = 0)
    (by
      constructor
      · rintro ⟨h1, h2⟩
        exact (nat_land_pred_eq_zero_iff n h1).mp h2
      · rintro ⟨k, hk⟩
        have h1 : 0 < n := by
          rw [hk]; exact Nat.pow_pos (by norm_num)
        exact ⟨h1, (nat_land_pred_eq_zero_iff n h1).mpr ⟨k, hk⟩⟩)

/-- Modelled from the spec: the fixed default data-plane buffer size the
sanitizer falls back to; the numeric value lives in the driver header,
which is not among the translated source files. -/
def GVE_RX_BUFFER_SIZE_DQO : Nat := 2048

/-- Modelled from the spec: smallest admissible packet buffer size. -/
def GVE_MIN_RX_BUFFER_SIZE : Nat := 2048

/-- Modelled from the spec: largest admissible packet buffer size. -/
def GVE_MAX_RX_BUFFER_SIZE : Nat := 4096

/-- Modelled from the spec: fixed default header buffer size. -/
def GVE_HEADER_BUFFER_SIZE_DEFAULT : Nat := 128

/-- Modelled from the spec: smallest admissible header buffer size. -/
def GVE_HEADER_BUFFER_SIZE_MIN : Nat := 64

/-- Modelled from the spec: largest admissible header buffer size. -/
def GVE_HEADER_BUFFER_SIZE_MAX : Nat := 256

def GVE_SUP_JUMBO_FRAMES_MASK : Nat := 4
def GVE_SUP_BUFFER_SIZES_MASK : Nat := 16
def GVE_SUP_FLOW_STEERING_MASK : Nat := 32
def DQO_QPL_DEFAULT_TX_PAGES : Nat := 512
def DQO_QPL_DEFAULT_RX_PAGES : Nat := 2048

/-- The driver-context fields written by gve_enable_supported_features. -/
structure PrivFeatures where
  dev_max_mtu : Nat
  data_buffer_size_dqo : Nat
  dev_max_rx_buffer_size : Nat
  header_buf_size : Nat
  flow_rules_max : Nat
  tx_pages_per_qpl : Nat
  rx_pages_per_qpl : Nat
deriving DecidableEq

/-- The jumbo-frames stage of gve_enable_supported_features. -/
def gve_enable_jumbo_stage (sfm : Nat) (dev_op_jumbo_frames : Option GveOptionPayload)
    (priv : PrivFeatures) : PrivFeatures :=
  match dev_op_jumbo_frames with
  | none => priv
  | some p =>
    if sfm &&& GVE_SUP_JUMBO_FRAMES_MASK ≠ 0 then { priv with dev_max_mtu := p.max_mtu }
    else priv

/-- The buffer-sizes stage of gve_enable_supported_features: each nonzero
advertised size is taken, replaced by the fixed default if it is not a
power of two, then raised to the minimum and lowered to the maximum. -/
def gve_enable_buffer_sizes_stage (sfm : Nat)
    (dev_op_buffer_sizes : Option GveOptionPayload)
    (priv : PrivFeatures) : PrivFeatures :=
  match dev_op_buffer_sizes with
  | none => priv
  | some p =>
    if sfm &&& GVE_SUP_BUFFER_SIZES_MASK ≠ 0 then
      let priv :=
        if p.packet_buffer_size ≠ 0 then
          let v1 := p.packet_buffer_size
          let v2 := if v1 &&& (v1 - 1) ≠ 0 then GVE_RX_BUFFER_SIZE_DQO else v1
          let v3 := if v2 < GVE_MIN_RX_BUFFER_SIZE then GVE_MIN_RX_BUFFER_SIZE else v2
          let v4 := if v3 > GVE_MAX_RX_BUFFER_SIZE then GVE_MAX_RX_BUFFER_SIZE else v3
          { priv with dev_max_rx_buffer_size := v4 }
        else priv
      if p.header_buffer_size ≠ 0 then
        let w1 := p.header_buffer_size
        let w2 := if w1 &&& (w1 - 1) ≠ 0 then GVE_HEADER_BUFFER_SIZE_DEFAULT else w1
        let w3 := if w2 < GVE_HEADER_BUFFER_SIZE_MIN then GVE_HEADER_BUFFER_SIZE_MIN else w2
        let w4 := if w3 > GVE_HEADER_BUFFER_SIZE_MAX then GVE_HEADER_BUFFER_SIZE_MAX else w3
        { priv with header_buf_size := w4 }
      else priv
    else priv

/-- The flow-steering stage of gve_enable_supported_features. -/
def gve_enable_flow_steering_stage (sfm : Nat)
    (dev_op_flow_steering : Option GveOptionPayload)
    (priv : PrivFeatures) : PrivFeatures :=
  match dev_op_flow_steering with
  | none => priv
  | some p =>
    if sfm &&& GVE_SUP_FLOW_STEERING_MASK ≠ 0 then
      { priv with flow_rules_max := p.max_num_rules }
    else priv

/-- The DQO-QPL page-count stage of gve_enable_supported_features. -/
def gve_enable_dqo_qpl_stage (dev_op_dqo_qpl : Option GveOptionPayload)
    (priv : PrivFeatures) : PrivFeatures :=
  match dev_op_dqo_qpl with
  | none => priv
  | some p =>
    { priv with
      tx_pages_per_qpl :=
        if p.tx_pages_per_qpl = 0 then DQO_QPL_DEFAULT_TX_PAGES else p.tx_pages_per_qpl,
      rx_pages_per_qpl :=
        if p.rx_pages_per_qpl = 0 then DQO_QPL_DEFAULT_RX_PAGES else p.rx_pages_per_qpl }

/-- gve_enable_supported_features: jumbo frames, then the preset buffer-size
defaults, then the buffer-sizes option, then flow steering, then the
DQO-QPL page counts, in source order. -/
def gve_enable_supported_features (sfm : Nat)
    (dev_op_jumbo_frames dev_op_buffer_sizes dev_op_flow_steering
      dev_op_dqo_qpl : Option GveOptionPayload)
    (priv : PrivFeatures) : PrivFeatures :=
  gve_enable_dqo_qpl_stage dev_op_dqo_qpl
    (gve_enable_flow_steering_stage sfm dev_op_flow_steering
      (gve_enable_buffer_sizes_stage sfm dev_op_buffer_sizes
        { gve_enable_jumbo_stage sfm dev_op_jumbo_frames priv with
          data_buffer_size_dqo := GVE_RX_BUFFER_SIZE_DQO,
          dev_max_rx_buffer_size := GVE_RX_BUFFER_SIZE_DQO,
          header_buf_size := 0 }))

/-- Clamping of an in-principle packet buffer size into the legal range. -/
def gveClampRxBufferSize (v : Nat) : Nat :=
  if v < GVE_MIN_RX_BUFFER_SIZE then GVE_MIN_RX_BUFFER_SIZE
  else if v > GVE_MAX_RX_BUFFER_SIZE then GVE_MAX_RX_BUFFER_SIZE
  else v

/-- Clamping of a header buffer size into the legal range. -/
def gveClampHeaderBufferSize (v : Nat) : Nat :=
  if v < GVE_HEADER_BUFFER_SIZE_MIN then GVE_HEADER_BUFFER_SIZE_MIN
  else if v > GVE_HEADER_BUFFER_SIZE_MAX then GVE_HEADER_BUFFER_SIZE_MAX
  else v

theorem gve_flow_steering_stage_buffers (sfm : Nat)
    (fs : Option GveOptionPayload) (priv : PrivFeatures) :
    (gve_enable_flow_steering_stage sfm fs priv).dev_max_rx_buffer_size =
        priv.dev_max_rx_buffer_size ∧
    (gve_enable_flow_steering_stage sfm fs priv).header_buf_size =
        priv.header_buf_size := by
  cases fs with
  | none => exact ⟨rfl, rfl⟩
  | some p =>
    simp only [gve_enable_flow_steering_stage]
    split_ifs <;> exact ⟨rfl, rfl⟩

theorem gve_dqo_qpl_stage_buffers (dq : Option GveOptionPayload)
    (priv : PrivFeatures) :
    (gve_enable_dqo_qpl_stage dq priv).dev_max_rx_buffer_size =
        priv.dev_max_rx_buffer_size ∧
    (gve_enable_dqo_qpl_stage dq priv).header_buf_size = priv.header_buf_size := by
  cases dq with
  | none => exact ⟨rfl, rfl⟩
  | some p => exact ⟨rfl, rfl⟩

theorem header_update_keeps_rx (c : Prop) [Decidable c] (q : PrivFeatures) (h : Nat) :
    (if c then { q with header_buf_size := h } else q).dev_max_rx_buffer_size =
      q.dev_max_rx_buffer_size := by
  split_ifs <;> rfl

theorem rx_update_keeps_header (c : Prop) [Decidable c] (q : PrivFeatures) (h : Nat) :
    (if c then { q with dev_max_rx_buffer_size := h } else q).header_buf_size =
      q.header_buf_size := by
  split_ifs <;> rfl

theorem gve_buffer_sizes_stage_rx (sfm : Nat) (p : GveOptionPayload)
    (priv : PrivFeatures) (hm : sfm &&& GVE_SUP_BUFFER_SIZES_MASK ≠ 0) :
    (gve_enable_buffer_sizes_stage sfm (some p) priv).dev_max_rx_buffer_size =
      if p.packet_buffer_size = 0 then priv.dev_max_rx_buffer_size
      else if IsPowTwo p.packet_buffer_size then
        gveClampRxBufferSize p.packet_buffer_size
      else GVE_RX_BUFFER_SIZE_DQO := by
  simp only [gve_enable_buffer_sizes_stage]
  rw [if_pos hm, header_update_keeps_rx]
  by_cases hz : p.packet_buffer_size = 0
  · rw [if_neg (by simp [hz]), if_pos hz]
  · rw [if_pos hz, if_neg hz]
    have hpos : 0 < p.packet_buffer_size := Nat.pos_of_ne_zero hz
    by_cases hpw : IsPowTwo p.packet_buffer_size
    · have hb : p.packet_buffer_size &&& (p.packet_buffer_size - 1) = 0 :=
        (nat_land_pred_eq_zero_iff _ hpos).mpr hpw
      rw [if_pos hpw]
      show (if (if (if p.packet_buffer_size &&& (p.packet_buffer_size - 1) ≠ 0 then
              GVE_RX_BUFFER_SIZE_DQO else p.packet_buffer_size) <
              GVE_MIN_RX_BUFFER_SIZE then GVE_MIN_RX_BUFFER_SIZE else _) >
            GVE_MAX_RX_BUFFER_SIZE then GVE_MAX_RX_BUFFER_SIZE else _) =
          gveClampRxBufferSize p.packet_buffer_size
      have hb2 : ¬ p.packet_buffer_size &&& (p.packet_buffer_size - 1) ≠ 0 := by
        simp [hb]
      rw [if_neg hb2]
      unfold gveClampRxBufferSize
      simp only [GVE_MIN_RX_BUFFER_SIZE, GVE_MAX_RX_BUFFER_SIZE]
      split_ifs <;> omega
    · have hb : p.packet_buffer_size &&& (p.packet_buffer_size - 1) ≠ 0 :=
        fun hc => hpw ((nat_land_pred_eq_zero_iff _ hpos).mp hc)
      rw [if_neg hpw]
      show (if (if (if p.packet_buffer_size &&& (p.packet_buffer_size - 1) ≠ 0 then
              GVE_RX_BUFFER_SIZE_DQO else p.packet_buffer_size) <
              GVE_MIN_RX_BUFFER_SIZE then GVE_MIN_RX_BUFFER_SIZE else _) >
            GVE_MAX_RX_BUFFER_SIZE then GVE_MAX_RX_BUFFER_SIZE else _) =
          GVE_RX_BUFFER_SIZE_DQO
      rw [if_pos hb]
      norm_num [GVE_RX_BUFFER_SIZE_DQO, GVE_MIN_RX_BUFFER_SIZE, GVE_MAX_RX_BUFFER_SIZE]

theorem gve_buffer_sizes_stage_header (sfm : Nat) (p : GveOptionPayload)
    (priv : PrivFeatures) (hm : sfm &&& GVE_SUP_BUFFER_SIZES_MASK ≠ 0) :
    (gve_enable_buffer_sizes_stage sfm (some p) priv).header_buf_size =
      if p.header_buffer_size = 0 then priv.header_buf_size
      else if IsPowTwo p.header_buffer_size then
        gveClampHeaderBufferSize p.header_buffer_size
      else GVE_HEADER_BUFFER_SIZE_DEFAULT := by
  simp only [gve_enable_buffer_sizes_stage]
  rw [if_pos hm]
  by_cases hz : p.header_buffer_size = 0
  · rw [if_neg (by simp [hz]), rx_update_keeps_header, if_pos hz]
  · rw [if_pos hz, if_neg hz]
    have hpos : 0 < p.header_buffer_size := Nat.pos_of_ne_zero hz
    by_cases hpw : IsPowTwo p.header_buffer_size
    · have hb : p.header_buffer_size &&& (p.header_buffer_size - 1) = 0 :=
        (nat_land_pred_eq_zero_iff _ hpos).mpr hpw
      rw [if_pos hpw]
      have hb2 : ¬ p.header_buffer_size &&& (p.header_buffer_size - 1) ≠ 0 := by
        simp [hb]
      rw [if_neg hb2]
      unfold gveClampHeaderBufferSize
      simp only [GVE_HEADER_BUFFER_SIZE_MIN, GVE_HEADER_BUFFER_SIZE_MAX]
      split_ifs <;> omega
    · have hb : p.header_buffer_size &&& (p.header_buffer_size - 1) ≠ 0 :=
        fun hc => hpw ((nat_land_pred_eq_zero_iff _ hpos).mp hc)
      rw [if_neg hpw, if_pos hb]
      norm_num [GVE_HEADER_BUFFER_SIZE_DEFAULT, GVE_HEADER_BUFFER_SIZE_MIN,
        GVE_HEADER_BUFFER_SIZE_MAX]

/-- Claim C8 (amended): when a buffer-sizes option was accepted and its
feature bit is set, each nonzero declared buffer size is sanitized without
ever rejecting the negotiation: a value that is not a power of two is
replaced by the fixed default, and a power-of-two value is clamped to the
legal minimum or maximum when it lies outside the range (not replaced by
the default, as the unamended claim said); a zero value leaves the pre-set
default in place (the fixed data-buffer default, and zero for the header
buffer); without an accepted option or feature bit the pre-set defaults
stand. -/
theorem gve_enable_supported_features_spec (sfm : Nat)
    (jumbo bufSizes flowSteering dqoQpl : Option GveOptionPayload)
    (priv : PrivFeatures) :
    ((bufSizes = none ∨ sfm &&& GVE_SUP_BUFFER_SIZES_MASK = 0) →
      (gve_enable_supported_features sfm jumbo bufSizes flowSteering dqoQpl
          priv).dev_max_rx_buffer_size = GVE_RX_BUFFER_SIZE_DQO ∧
      (gve_enable_supported_features sfm jumbo bufSizes flowSteering dqoQpl
          priv).header_buf_size = 0) ∧
    (∀ p, bufSizes = some p → sfm &&& GVE_SUP_BUFFER_SIZES_MASK ≠ 0 →
      (gve_enable_supported_features sfm jumbo bufSizes flowSteering dqoQpl
          priv).dev_max_rx_buffer_size =
        (if p.packet_buffer_size = 0 then GVE_RX_BUFFER_SIZE_DQO
         else if IsPowTwo p.packet_buffer_size then
           gveClampRxBufferSize p.packet_buffer_size
         else GVE_RX_BUFFER_SIZE_DQO) ∧
      (gve_enable_supported_features sfm jumbo bufSizes flowSteering dqoQpl
          priv).header_buf_size =
        (if p.header_buffer_size = 0 then 0
         else if IsPowTwo p.header_buffer_size then
           gveClampHeaderBufferSize p.header_buffer_size
         else GVE_HEADER_BUFFER_SIZE_DEFAULT)) := by
  constructor
  · intro hcase
    unfold gve_enable_supported_features
    refine ⟨?_, ?_⟩
    · rw [(gve_dqo_qpl_stage_buffers _ _).1, (gve_flow_steering_stage_buffers _ _ _).1]
      rcases hcase with hnone | hmask
      · subst hnone; rfl
      · cases bufSizes with
        | none => rfl
        | some p =>
          simp only [gve_enable_buffer_sizes_stage]
          have hnn : ¬ sfm &&& GVE_SUP_BUFFER_SIZES_MASK ≠ 0 := not_not_intro hmask
          rw [if_neg hnn]
    · rw [(gve_dqo_qpl_stage_buffers _ _).2, (gve_flow_steering_stage_buffers _ _ _).2]
      rcases hcase with hnone | hmask
      · subst hnone; rfl
      · cases bufSizes with
        | none => rfl
        | some p =>
          simp only [gve_enable_buffer_sizes_stage]
          have hnn : ¬ sfm &&& GVE_SUP_BUFFER_SIZES_MASK ≠ 0 := not_not_intro hmask
          rw [if_neg hnn]
  · intro p hp hmask
    subst hp
    unfold gve_enable_supported_features
    refine ⟨?_, ?_⟩
    · rw [(gve_dqo_qpl_stage_buffers _ _).1, (gve_flow_steering_stage_buffers _ _ _).1,
        gve_buffer_sizes_stage_rx _ _ _ hmask]
    · rw [(gve_dqo_qpl_stage_buffers _ _).2, (gve_flow_steering_stage_buffers _ _ _).2,
        gve_buffer_sizes_stage_header _ _ _ hmask]

def privFeat0 : PrivFeatures :=
  { dev_max_mtu := 0, data_buffer_size_dqo := 0, dev_max_rx_buffer_size := 0,
    header_buf_size := 0, flow_rules_max := 0, tx_pages_per_qpl := 0,
    rx_pages_per_qpl := 0 }

def bufPayloadW : GveOptionPayload :=
  { packet_buffer_size := 3000, header_buffer_size := 512 }

theorem gve_enable_supported_features_spec_witness :
    (gve_enable_supported_features GVE_SUP_BUFFER_SIZES_MASK none (some bufPayloadW)
        none none privFeat0).dev_max_rx_buffer_size = GVE_RX_BUFFER_SIZE_DQO ∧
    (gve_enable_supported_features GVE_SUP_BUFFER_SIZES_MASK none (some bufPayloadW)
        none none privFeat0).header_buf_size = GVE_HEADER_BUFFER_SIZE_MAX := by
  have h := (gve_enable_supported_features_spec GVE_SUP_BUFFER_SIZES_MASK none
    (some bufPayloadW) none none privFeat0).2 bufPayloadW rfl (by decide)
  refine ⟨?_, ?_⟩
  · rw [h.1]; decide
  · rw [h.2]; decide

def bufPayloadCex : GveOptionPayload := { header_buffer_size := 512 }

/-- Claim C8 counterexample: a declared header buffer size of 512 is a
power of two lying above the legal maximum 256; the sanitizer clamps it to
the maximum 256 rather than replacing it with the fixed default 128, so an
out-of-range value is not replaced by a fixed default value as the claim
states. -/
theorem gve_enable_supported_features_cex :
    IsPowTwo 512 ∧
    GVE_HEADER_BUFFER_SIZE_MAX < 512 ∧
    (gve_enable_supported_features GVE_SUP_BUFFER_SIZES_MASK none (some bufPayloadCex)
        none none privFeat0).header_buf_size = GVE_HEADER_BUFFER_SIZE_MAX ∧
    GVE_HEADER_BUFFER_SIZE_MAX ≠ GVE_HEADER_BUFFER_SIZE_DEFAULT := by
  exact ⟨⟨9, rfl⟩, by decide, by decide, by decide⟩

/-! Flow rule directory (gve_ethtool.c).  The byte arrays and unions of
struct gve_flow_spec are modelled with one field per leaf the code reads or
writes; a rule is allocated zeroed, so every unset field is 0 and memcmp
equality of two stored rules coincides with structural equality. -/

structure GveIpArr where
  w0 : Nat := 0
  w1 : Nat := 0
  w2 : Nat := 0
  w3 : Nat := 0
deriving DecidableEq

structure GveFlowSpec where
  src_ip : GveIpArr := {}
  dst_ip : GveIpArr := {}
  src_port : Nat := 0
  dst_port : Nat := 0
  spi : Nat := 0
  tos : Nat := 0
  tclass : Nat := 0
deriving DecidableEq

structure GveFlowRule where
  loc : Nat
  flow_type : Nat
  action : Nat
  key : GveFlowSpec
  mask : GveFlowSpec
deriving DecidableEq

/-- The flow-rule fields of the driver context: the advertised maximum, the
rule counter and the rule list in list order. -/
structure GveFlowState where
  flow_rules_max : Nat
  flow_rules_cnt : Nat
  flow_rules : List GveFlowRule
deriving DecidableEq

/-! Ethtool flow-spec constants of the kernel uapi (external interface). -/

def TCP_V4_FLOW : Nat := 0x01
def UDP_V4_FLOW : Nat := 0x02
def SCTP_V4_FLOW : Nat := 0x03
def TCP_V6_FLOW : Nat := 0x05
def UDP_V6_FLOW : Nat := 0x06
def SCTP_V6_FLOW : Nat := 0x07
def AH_V4_FLOW : Nat := 0x09
def ESP_V4_FLOW : Nat := 0x0a
def AH_V6_FLOW : Nat := 0x0b
def ESP_V6_FLOW : Nat := 0x0c
def FLOW_EXT : Nat := 0x80000000
def FLOW_MAC_EXT : Nat := 0x40000000
def FLOW_RSS : Nat := 0x20000000
def RX_CLS_FLOW_DISC : Nat := 2 ^ 64 - 1

/-! The gve flow-type enum of the driver header (opaque distinct tags). -/

def GVE_FLOW_TYPE_TCPV4 : Nat := 0
def GVE_FLOW_TYPE_UDPV4 : Nat := 1
def GVE_FLOW_TYPE_SCTPV4 : Nat := 2
def GVE_FLOW_TYPE_AHV4 : Nat := 3
def GVE_FLOW_TYPE_ESPV4 : Nat := 4
def GVE_FLOW_TYPE_TCPV6 : Nat := 5
def GVE_FLOW_TYPE_UDPV6 : Nat := 6
def GVE_FLOW_TYPE_SCTPV6 : Nat := 7
def GVE_FLOW_TYPE_AHV6 : Nat := 8
def GVE_FLOW_TYPE_ESPV6 : Nat := 9

/-- The union views of struct ethtool_rx_flow_spec the driver reads,
flattened: the ip4 fields of tcp_ip4_spec and ah_ip4_spec alias each other,
as do the ip6 arrays of tcp_ip6_spec, ah_ip6_spec and usr_ip6_spec, so one
field per aliased leaf is kept. -/
structure EthtoolFlowU where
  ip4src : Nat := 0
  ip4dst : Nat := 0
  ip6src : GveIpArr := {}
  ip6dst : GveIpArr := {}
  psrc : Nat := 0
  pdst : Nat := 0
  tos : Nat := 0
  tclass : Nat := 0
  spi : Nat := 0
deriving DecidableEq

structure EthtoolRxFlowSpec where
  flow_type : Nat
  ring_cookie : Nat
  location : Nat
  h_u : EthtoolFlowU
  m_u : EthtoolFlowU
deriving DecidableEq

/-- gve_flow_rule_is_dup_rule: some stored rule has the same flow type and
byte-identical key and mask. -/
def gve_flow_rule_is_dup_rule (st : GveFlowState) (rule : GveFlowRule) : Bool :=
  st.flow_rules.any (fun tmp =>
    tmp.flow_type == rule.flow_type && tmp.key == rule.key && tmp.mask == rule.mask)

/-- gve_find_flow_rule_by_loc: first stored rule with the given location. -/
def gve_find_flow_rule_by_loc (st : GveFlowState) (loc : Nat) : Option GveFlowRule :=
  st.flow_rules.find? (fun r => r.loc == loc)

/-- The insertion scan of gve_flow_rules_add_rule: insert before the first
rule whose location is not below the new location. -/
def gve_flow_rules_insert (l : List GveFlowRule) (rule : GveFlowRule) :
    List GveFlowRule :=
  match l with
  | [] => [rule]
  | x :: xs =>
    if rule.loc ≤ x.loc then rule :: x :: xs
    else x :: gve_flow_rules_insert xs rule

/-- gve_flow_rules_add_rule: insert in location order and count up. -/
def gve_flow_rules_add_rule (st : GveFlowState) (rule : GveFlowRule) : GveFlowState :=
  { st with
    flow_rules := gve_flow_rules_insert st.flow_rules rule,
    flow_rules_cnt := st.flow_rules_cnt + 1 }

/-- gve_flow_rules_del_rule: unlink the first rule at the location and count
down. -/
def gve_flow_rules_del_rule (st : GveFlowState) (loc : Nat) : GveFlowState :=
  { st with
    flow_rules := st.flow_rules.eraseP (fun r => r.loc == loc),
    flow_rules_cnt := st.flow_rules_cnt - 1 }

/-- The ethtool flow type after stripping the extension flags, as in
gve_add_flow_rule_info. -/
def gveEthtoolFlowType (fsp : EthtoolRxFlowSpec) : Nat :=
  fsp.flow_type &&& (0xffffffff - (FLOW_EXT ||| FLOW_MAC_EXT ||| FLOW_RSS))

/-- The first switch of gve_add_flow_rule_info: map the ethtool flow type
to the gve flow type, or fail. -/
def gve_flow_type_of (t : Nat) : Option Nat :=
  if t = TCP_V4_FLOW then some GVE_FLOW_TYPE_TCPV4
  else if t = UDP_V4_FLOW then some GVE_FLOW_TYPE_UDPV4
  else if t = SCTP_V4_FLOW then some GVE_FLOW_TYPE_SCTPV4
  else if t = AH_V4_FLOW then some GVE_FLOW_TYPE_AHV4
  else if t = ESP_V4_FLOW then some GVE_FLOW_TYPE_ESPV4
  else if t = TCP_V6_FLOW then some GVE_FLOW_TYPE_TCPV6
  else if t = UDP_V6_FLOW then some GVE_FLOW_TYPE_UDPV6
  else if t = SCTP_V6_FLOW then some GVE_FLOW_TYPE_SCTPV6
  else if t = AH_V6_FLOW then some GVE_FLOW_TYPE_AHV6
  else if t = ESP_V6_FLOW then some GVE_FLOW_TYPE_ESPV6
  else none

/-- The second switch of gve_add_flow_rule_info: build the (zero-initialized)
rule from the flow spec.  For the AH and ESP cases over IPv4 the tos fields
are not copied; over IPv6 the key spi is assigned twice and the mask spi is
never assigned, as in the source. -/
def gve_rule_from_fsp (gveType ethType : Nat) (fsp : EthtoolRxFlowSpec)
    (q_index : Nat) : GveFlowRule :=
  let base : GveFlowRule :=
    { loc := fsp.location, flow_type := gveType, action := q_index,
      key := {}, mask := {} }
  if ethType = TCP_V4_FLOW ∨ ethType = UDP_V4_FLOW ∨ ethType = SCTP_V4_FLOW then
    { base with
      key := { base.key with
        src_ip := { base.key.src_ip with w0 := fsp.h_u.ip4src },
        dst_ip := { base.key.dst_ip with w0 := fsp.h_u.ip4dst },
        src_port := fsp.h_u.psrc, dst_port := fsp.h_u.pdst },
      mask := { base.mask with
        src_ip := { base.mask.src_ip with w0 := fsp.m_u.ip4src },
        dst_ip := { base.mask.dst_ip with w0 := fsp.m_u.ip4dst },
        src_port := fsp.m_u.psrc, dst_port := fsp.m_u.pdst } }
  else if ethType = AH_V4_FLOW ∨ ethType = ESP_V4_FLOW then
    { base with
      key := { base.key with
        src_ip := { base.key.src_ip with w0 := fsp.h_u.ip4src },
        dst_ip := { base.key.dst_ip with w0 := fsp.h_u.ip4dst },
        spi := fsp.h_u.spi },
      mask := { base.mask with
        src_ip := { base.mask.src_ip with w0 := fsp.m_u.ip4src },
        dst_ip := { base.mask.dst_ip with w0 := fsp.m_u.ip4dst },
        spi := fsp.m_u.spi } }
  else if ethType = TCP_V6_FLOW ∨ ethType = UDP_V6_FLOW ∨ ethType = SCTP_V6_FLOW then
    { base with
      key := { base.key with
        src_ip := fsp.h_u.ip6src, dst_ip := fsp.h_u.ip6dst,
        src_port := fsp.h_u.psrc, dst_port := fsp.h_u.pdst },
      mask := { base.mask with
        src_ip := fsp.m_u.ip6src, dst_ip := fsp.m_u.ip6dst,
        src_port := fsp.m_u.psrc, dst_port := fsp.m_u.pdst } }
  else if ethType = AH_V6_FLOW ∨ ethType = ESP_V6_FLOW then
    { base with
      key := { base.key with
        src_ip := fsp.h_u.ip6src, dst_ip := fsp.h_u.ip6dst,
        spi := fsp.h_u.spi },
      mask := { base.mask with
        src_ip := fsp.m_u.ip6src, dst_ip := fsp.m_u.ip6dst } }
  else base

/-- gve_add_flow_rule_info: reject the drop action and out-of-range queue
indices, map the flow type, build the rule, and reject duplicates. -/
def gve_add_flow_rule_info (st : GveFlowState) (numQueues : Nat)
    (fsp : EthtoolRxFlowSpec) : Except Int GveFlowRule :=
  if fsp.ring_cookie = RX_CLS_FLOW_DISC then .error (-EOPNOTSUPP)
  else if numQueues ≤ fsp.ring_cookie % 2 ^ 32 then .error (-EINVAL)
  else
    match gve_flow_type_of (gveEthtoolFlowType fsp) with
    | none => .error (-EINVAL)
    | some gveType =>
      if gve_flow_rule_is_dup_rule st
          (gve_rule_from_fsp gveType (gveEthtoolFlowType fsp) fsp
            (fsp.ring_cookie % 2 ^ 32)) then .error (-EEXIST)
      else .ok (gve_rule_from_fsp gveType (gveEthtoolFlowType fsp) fsp
            (fsp.ring_cookie % 2 ^ 32))

/-- gve_add_flow_rule.  Device interaction and allocation are oracles:
devResp is the result of the extended configure-flow-rule ADD command and
allocOk whether the rule allocation succeeds.  Returns the error code and
the new flow-rule state. -/
def gve_add_flow_rule (devResp : Int) (allocOk : Bool) (numQueues : Nat)
    (st : GveFlowState) (fsp : EthtoolRxFlowSpec) : Int × GveFlowState :=
  if st.flow_rules_max = 0 then (-EOPNOTSUPP, st)
  else if st.flow_rules_max ≤ st.flow_rules_cnt then (-ENOSPC, st)
  else if (gve_find_flow_rule_by_loc st fsp.location).isSome then (-EEXIST, st)
  else if ¬allocOk then (-ENOMEM, st)
  else
    match gve_add_flow_rule_info st numQueues fsp with
    | .error e => (e, st)
    | .ok rule =>
      if devResp ≠ 0 then (devResp, st)
      else (0, gve_flow_rules_add_rule st rule)

/-- gve_del_flow_rule: devResp is the result of the extended
configure-flow-rule DEL command. -/
def gve_del_flow_rule (devResp : Int) (st : GveFlowState) (loc : Nat) :
    Int × GveFlowState :=
  if st.flow_rules_max = 0 then (-EOPNOTSUPP, st)
  else
    match gve_find_flow_rule_by_loc st loc with
    | none => (-EINVAL, st)
    | some _ =>
      if devResp ≠ 0 then (devResp, st)
      else (0, gve_flow_rules_del_rule st loc)

/-- The collection loop of gve_get_flow_rule_ids with the remaining caller
capacity: overflowing the capacity yields -EMSGSIZE. -/
def gve_collect_rule_locs : List GveFlowRule → Nat → Except Int (List Nat)
  | [], _ => .ok []
  | r :: rest, cap =>
    if cap = 0 then .error (-EMSGSIZE)
    else
      match gve_collect_rule_locs rest (cap - 1) with
      | .error e => .error e
      | .ok ls => .ok (r.loc :: ls)

/-- gve_get_flow_rule_ids: enumerate the stored rule locations in list
order, bounded by the caller capacity. -/
def gve_get_flow_rule_ids (st : GveFlowState) (cap : Nat) : Except Int (List Nat) :=
  if st.flow_rules_max = 0 then .error (-EOPNOTSUPP)
  else gve_collect_rule_locs st.flow_rules cap

/-- The rule-count read of gve_get_rxnfc (ETHTOOL_GRXCLSRLCNT). -/
def gve_get_rxnfc_rule_cnt (st : GveFlowState) : Except Int Nat :=
  if st.flow_rules_max = 0 then .error (-EOPNOTSUPP)
  else .ok st.flow_rules_cnt

/-- One management operation on the flow-rule directory, with its device
and allocator oracles. -/
inductive GveFlowOp where
  | add (devResp : Int) (allocOk : Bool) (numQueues : Nat) (fsp : EthtoolRxFlowSpec)
  | del (devResp : Int) (loc : Nat)

def gve_apply_flow_op (st : GveFlowState) : GveFlowOp → GveFlowState
  | .add d a n f => (gve_add_flow_rule d a n st f).2
  | .del d l => (gve_del_flow_rule d st l).2

def gve_apply_flow_ops (st : GveFlowState) : List GveFlowOp → GveFlowState
  | [] => st
  | op :: rest => gve_apply_flow_ops (gve_apply_flow_op st op) rest

/-- The flow-rule state right after device bring-up. -/
def gve_init_flow_state (maxRules : Nat) : GveFlowState :=
  { flow_rules_max := maxRules, flow_rules_cnt := 0, flow_rules := [] }

theorem gve_flow_rules_insert_mem (r y : GveFlowRule) :
    ∀ l : List GveFlowRule, y ∈ gve_flow_rules_insert l r ↔ y ∈ l ∨ y = r := by
  intro l
  induction l with
  | nil => simp [gve_flow_rules_insert]
  | cons x xs ih =>
    simp only [gve_flow_rules_insert]
    split_ifs with hle
    · simp only [List.mem_cons]
      tauto
    · simp only [List.mem_cons, ih]
      tauto

theorem gve_flow_rules_insert_pairwise (r : GveFlowRule) :
    ∀ l : List GveFlowRule,
      l.Pairwise (fun a b => a.loc < b.loc) →
      (∀ x ∈ l, x.loc ≠ r.loc) →
      (gve_flow_rules_insert l r).Pairwise (fun a b => a.loc < b.loc) := by
  intro l
  induction l with
  | nil => intro _ _; simp [gve_flow_rules_insert]
  | cons x xs ih =>
    intro hp hne
    rw [List.pairwise_cons] at hp
    simp only [gve_flow_rules_insert]
    split_ifs with hle
    · have hlt : r.loc < x.loc :=
        lt_of_le_of_ne hle (fun he => hne x (List.mem_cons_self x xs) he.symm)
      rw [List.pairwise_cons]
      refine ⟨?_, List.pairwise_cons.mpr hp⟩
      intro y hy
      rcases List.mem_cons.mp hy with rfl | hy2
      · exact hlt
      · exact lt_trans hlt (hp.1 y hy2)
    · have hgt : x.loc < r.loc := by
        rcases Nat.lt_or_ge r.loc x.loc with h | h
        · exact absurd (Nat.le_of_lt h) hle
        · exact lt_of_le_of_ne h (fun he => hne x (List.mem_cons_self x xs) he)
      rw [List.pairwise_cons]
      refine ⟨?_, ih hp.2 (fun z hz => hne z (List.mem_cons_of_mem x hz))⟩
      intro y hy
      rcases (gve_flow_rules_insert_mem r y xs).mp hy with hy2 | rfl
      · exact hp.1 y hy2
      · exact hgt

theorem gve_flow_rules_insert_length (r : GveFlowRule) :
    ∀ l : List GveFlowRule, (gve_flow_rules_insert l r).length = l.length + 1 := by
  intro l
  induction l with
  | nil => rfl
  | cons x xs ih =>
    simp only [gve_flow_rules_insert]
    split_ifs with hle
    · rfl
    · simp [ih]

theorem gve_eraseP_length (p : GveFlowRule → Bool) :
    ∀ l : List GveFlowRule, (∃ x ∈ l, p x = true) →
      (l.eraseP p).length + 1 = l.length := by
  intro l
  induction l with
  | nil => rintro ⟨x, hx, _⟩; exact absurd hx (List.not_mem_nil x)
  | cons x xs ih =>
    rintro ⟨y, hy, hpy⟩
    by_cases hpx : p x = true
    · rw [List.eraseP_cons_of_pos hpx]
      simp
    · rw [List.eraseP_cons_of_neg (by simp [hpx])]
      have hyx : y ∈ xs := by
        rcases List.mem_cons.mp hy with rfl | h
        · exact absurd hpy hpx
        · exact h
      simp only [List.length_cons]
      rw [ih ⟨y, hyx, hpy⟩]

/-- The flow-rule directory invariant: rules are strictly ordered by
location and the counter matches the list length. -/
def GveFlowInv (st : GveFlowState) : Prop :=
  st.flow_rules.Pairwise (fun a b => a.loc < b.loc) ∧
  st.flow_rules_cnt = st.flow_rules.length

theorem gve_rule_from_fsp_loc (gveType ethType : Nat) (fsp : EthtoolRxFlowSpec)
    (q_index : Nat) :
    (gve_rule_from_fsp gveType ethType fsp q_index).loc = fsp.location := by
  unfold gve_rule_from_fsp
  split_ifs <;> rfl

theorem gve_add_flow_rule_info_loc (st : GveFlowState) (numQueues : Nat)
    (fsp : EthtoolRxFlowSpec) (rule : GveFlowRule)
    (h : gve_add_flow_rule_info st numQueues fsp = .ok rule) :
    rule.loc = fsp.location := by
  unfold gve_add_flow_rule_info at h
  by_cases h1 : fsp.ring_cookie = RX_CLS_FLOW_DISC
  · rw [if_pos h1] at h
    exact absurd h (by simp)
  · rw [if_neg h1] at h
    by_cases h2 : numQueues ≤ fsp.ring_cookie % 2 ^ 32
    · rw [if_pos h2] at h
      exact absurd h (by simp)
    · rw [if_neg h2] at h
      cases hft : gve_flow_type_of (gveEthtoolFlowType fsp) with
      | none =>
        rw [hft] at h
        exact absurd h (by simp)
      | some t =>
        rw [hft] at h
        simp only at h
        split_ifs at h with h3
        all_goals
          first
            | (rw [Except.ok.injEq] at h
               rw [← h]
               exact gve_rule_from_fsp_loc _ _ _ _)
            | exact absurd h (by simp)

theorem gve_flow_op_inv (st : GveFlowState) (op : GveFlowOp)
    (hinv : GveFlowInv st) : GveFlowInv (gve_apply_flow_op st op) := by
  cases op with
  | add d a n f =>
    simp only [gve_apply_flow_op, gve_add_flow_rule]
    by_cases h1 : st.flow_rules_max = 0
    · rw [if_pos h1]; exact hinv
    · rw [if_neg h1]
      by_cases h2 : st.flow_rules_max ≤ st.flow_rules_cnt
      · rw [if_pos h2]; exact hinv
      · rw [if_neg h2]
        by_cases h3 : (gve_find_flow_rule_by_loc st f.location).isSome = true
        · rw [if_pos h3]; exact hinv
        · rw [if_neg h3]
          by_cases h4 : a = true
          · rw [if_neg (by simp [h4])]
            cases hin : gve_add_flow_rule_info st n f with
            | error e => exact hinv
            | ok rule =>
              show GveFlowInv
                (if d ≠ 0 then (d, st) else (0, gve_flow_rules_add_rule st rule)).2
              by_cases h5 : d ≠ 0
              · rw [if_pos h5]; exact hinv
              · rw [if_neg h5]
                have hloc : rule.loc = f.location :=
                  gve_add_flow_rule_info_loc _ _ _ _ hin
                have hnone : gve_find_flow_rule_by_loc st f.location = none :=
                  Option.not_isSome_iff_eq_none.mp h3
                have hne : ∀ x ∈ st.flow_rules, x.loc ≠ rule.loc := by
                  intro x hx
                  have hq := List.find?_eq_none.mp hnone x hx
                  simpa [hloc] using hq
                constructor
                · exact gve_flow_rules_insert_pairwise rule st.flow_rules hinv.1 hne
                · simp only [gve_flow_rules_add_rule]
                  rw [gve_flow_rules_insert_length, hinv.2]
          · rw [if_pos (by simpa using h4)]
            exact hinv
  | del d l =>
    simp only [gve_apply_flow_op, gve_del_flow_rule]
    by_cases h1 : st.flow_rules_max = 0
    · rw [if_pos h1]; exact hinv
    · rw [if_neg h1]
      cases hfind : gve_find_flow_rule_by_loc st l with
      | none => exact hinv
      | some r =>
        show GveFlowInv
          (if d ≠ 0 then (d, st) else (0, gve_flow_rules_del_rule st l)).2
        by_cases h2 : d ≠ 0
        · rw [if_pos h2]; exact hinv
        · rw [if_neg h2]
          have hfind2 : st.flow_rules.find? (fun x => x.loc == l) = some r := hfind
          have hmem : r ∈ st.flow_rules := List.mem_of_find?_eq_some hfind2
          have hpr := List.find?_some hfind2
          have hlen := gve_eraseP_length (fun x => x.loc == l) st.flow_rules
            ⟨r, hmem, hpr⟩
          constructor
          · exact List.Pairwise.sublist (List.eraseP_sublist _) hinv.1
          · have hc := hinv.2
            simp only [gve_flow_rules_del_rule]
            omega

theorem gve_flow_ops_inv (ops : List GveFlowOp) :
    ∀ st : GveFlowState, GveFlowInv st →
      GveFlowInv (gve_apply_flow_ops st ops) := by
  induction ops with
  | nil => intro st h; exact h
  | cons op rest ih =>
    intro st h
    exact ih _ (gve_flow_op_inv st op h)

theorem gve_init_flow_inv (maxRules : Nat) : GveFlowInv (gve_init_flow_state maxRules) :=
  ⟨List.Pairwise.nil, rfl⟩

theorem gve_collect_rule_locs_ok (l : List GveFlowRule) :
    ∀ (cap : Nat) (ls : List Nat), gve_collect_rule_locs l cap = .ok ls →
      ls = l.map (fun r => r.loc) := by
  induction l with
  | nil =>
    intro cap ls h
    simp only [gve_collect_rule_locs, Except.ok.injEq] at h
    simp [← h]
  | cons r rest ih =>
    intro cap ls h
    simp only [gve_collect_rule_locs] at h
    split_ifs at h with h1
    cases hrec : gve_collect_rule_locs rest (cap - 1) with
    | error e =>
      rw [hrec] at h
      exact absurd h (by simp)
    | ok tl =>
      rw [hrec] at h
      rw [Except.ok.injEq] at h
      rw [← h, List.map_cons, ih (cap - 1) tl hrec]

theorem gve_add_flow_rule_info_error_ne (st : GveFlowState) (numQueues : Nat)
    (fsp : EthtoolRxFlowSpec) (e : Int)
    (h : gve_add_flow_rule_info st numQueues fsp = .error e) : e ≠ 0 := by
  unfold gve_add_flow_rule_info at h
  by_cases h1 : fsp.ring_cookie = RX_CLS_FLOW_DISC
  · rw [if_pos h1] at h
    rw [Except.error.injEq] at h
    rw [← h]
    decide
  · rw [if_neg h1] at h
    by_cases h2 : numQueues ≤ fsp.ring_cookie % 2 ^ 32
    · rw [if_pos h2] at h
      rw [Except.error.injEq] at h
      rw [← h]
      decide
    · rw [if_neg h2] at h
      cases hft : gve_flow_type_of (gveEthtoolFlowType fsp) with
      | none =>
        rw [hft] at h
        simp only [Except.error.injEq] at h
        rw [← h]
        decide
      | some t =>
        rw [hft] at h
        simp only at h
        split_ifs at h with h3
        all_goals
          first
            | (rw [Except.error.injEq] at h
               rw [← h]
               decide)
            | exact absurd h (by simp)

theorem gve_add_flow_rule_cases (d : Int) (a : Bool) (n : Nat)
    (st : GveFlowState) (f : EthtoolRxFlowSpec) :
    ((gve_add_flow_rule d a n st f).1 = 0 → d = 0 ∧
      ∃ rule, gve_add_flow_rule_info st n f = .ok rule ∧
        (gve_add_flow_rule d a n st f).2 = gve_flow_rules_add_rule st rule) ∧
    ((gve_add_flow_rule d a n st f).1 ≠ 0 → (gve_add_flow_rule d a n st f).2 = st) := by
  unfold gve_add_flow_rule
  by_cases h1 : st.flow_rules_max = 0
  · rw [if_pos h1]
    exact ⟨fun h => absurd (show (-EOPNOTSUPP : Int) = 0 from h) (by decide),
      fun _ => rfl⟩
  · rw [if_neg h1]
    by_cases h2 : st.flow_rules_max ≤ st.flow_rules_cnt
    · rw [if_pos h2]
      exact ⟨fun h => absurd (show (-ENOSPC : Int) = 0 from h) (by decide),
        fun _ => rfl⟩
    · rw [if_neg h2]
      by_cases h3 : (gve_find_flow_rule_by_loc st f.location).isSome = true
      · rw [if_pos h3]
        exact ⟨fun h => absurd (show (-EEXIST : Int) = 0 from h) (by decide),
          fun _ => rfl⟩
      · rw [if_neg h3]
        by_cases h4 : a = true
        · rw [if_neg (by simp [h4])]
          cases hin : gve_add_flow_rule_info st n f with
          | error e =>
            exact ⟨fun h => absurd h (gve_add_flow_rule_info_error_ne st n f e hin),
              fun _ => rfl⟩
          | ok rule =>
            show ((if d ≠ 0 then (d, st) else
                (0, gve_flow_rules_add_rule st rule)).1 = 0 →
                d = 0 ∧ ∃ r2, (Except.ok rule : Except Int GveFlowRule) = .ok r2 ∧
                  (if d ≠ 0 then (d, st) else
                    (0, gve_flow_rules_add_rule st rule)).2 =
                    gve_flow_rules_add_rule st r2) ∧
              ((if d ≠ 0 then (d, st) else
                (0, gve_flow_rules_add_rule st rule)).1 ≠ 0 →
                (if d ≠ 0 then (d, st) else
                  (0, gve_flow_rules_add_rule st rule)).2 = st)
            by_cases h5 : d ≠ 0
            · rw [if_pos h5]
              exact ⟨fun h => absurd h h5, fun _ => rfl⟩
            · rw [if_neg h5]
              exact ⟨fun _ => ⟨by omega, rule, rfl, rfl⟩, fun h => absurd rfl h⟩
        · rw [if_pos (by simpa using h4)]
          exact ⟨fun h => absurd (show (-ENOMEM : Int) = 0 from h) (by decide),
            fun _ => rfl⟩

theorem gve_del_flow_rule_cases (d : Int) (st : GveFlowState) (l : Nat) :
    ((gve_del_flow_rule d st l).1 = 0 →
      (gve_find_flow_rule_by_loc st l).isSome = true ∧ d = 0 ∧
      (gve_del_flow_rule d st l).2 = gve_flow_rules_del_rule st l) ∧
    ((gve_del_flow_rule d st l).1 ≠ 0 → (gve_del_flow_rule d st l).2 = st) := by
  unfold gve_del_flow_rule
  by_cases h1 : st.flow_rules_max = 0
  · rw [if_pos h1]
    exact ⟨fun h => absurd (show (-EOPNOTSUPP : Int) = 0 from h) (by decide),
      fun _ => rfl⟩
  · rw [if_neg h1]
    cases hfind : gve_find_flow_rule_by_loc st l with
    | none =>
      exact ⟨fun h => absurd (show (-EINVAL : Int) = 0 from h) (by decide),
        fun _ => rfl⟩
    | some r =>
      show ((if d ≠ 0 then (d, st) else (0, gve_flow_rules_del_rule st l)).1 = 0 →
          (some r : Option GveFlowRule).isSome = true ∧ d = 0 ∧
          (if d ≠ 0 then (d, st) else
            (0, gve_flow_rules_del_rule st l)).2 = gve_flow_rules_del_rule st l) ∧
        ((if d ≠ 0 then (d, st) else (0, gve_flow_rules_del_rule st l)).1 ≠ 0 →
          (if d ≠ 0 then (d, st) else (0, gve_flow_rules_del_rule st l)).2 = st)
      by_cases h2 : d ≠ 0
      · rw [if_pos h2]
        exact ⟨fun h => absurd h h2, fun _ => rfl⟩
      · rw [if_neg h2]
        exact ⟨fun _ => ⟨rfl, by omega, rfl⟩, fun h => absurd rfl h⟩

/-- Claim C7 (amended): after any sequence of add and delete operations
from bring-up, the stored rules are in strictly ascending location order;
any successful enumeration returns exactly those locations, hence in
strictly ascending order; and when flow steering is supported (nonzero
advertised maximum) deleting a location that is not in the list returns
-EINVAL with the state unchanged in length and order.  The unamended claim
asserted -EINVAL for absent locations also when the advertised maximum is
zero, where the code returns -EOPNOTSUPP instead. -/
theorem gve_flow_rules_order_spec (maxRules : Nat) (ops : List GveFlowOp)
    (cap : Nat) (devResp : Int) (st2 : GveFlowState) (loc : Nat) :
    ((gve_apply_flow_ops (gve_init_flow_state maxRules) ops).flow_rules.map
        (fun r => r.loc)).Pairwise (· < ·) ∧
    (∀ ls, gve_get_flow_rule_ids
        (gve_apply_flow_ops (gve_init_flow_state maxRules) ops) cap = .ok ls →
      ls = (gve_apply_flow_ops (gve_init_flow_state maxRules) ops).flow_rules.map
          (fun r => r.loc) ∧
      ls.Pairwise (· < ·)) ∧
    (st2.flow_rules_max ≠ 0 → gve_find_flow_rule_by_loc st2 loc = none →
      gve_del_flow_rule devResp st2 loc = (-EINVAL, st2)) := by
  have hinv := gve_flow_ops_inv ops (gve_init_flow_state maxRules)
    (gve_init_flow_inv maxRules)
  have hmap : ((gve_apply_flow_ops (gve_init_flow_state maxRules) ops).flow_rules.map
      (fun r => r.loc)).Pairwise (· < ·) :=
    List.pairwise_map.mpr hinv.1
  refine ⟨hmap, ?_, ?_⟩
  · intro ls hls
    unfold gve_get_flow_rule_ids at hls
    split_ifs at hls with h1
    have hok := gve_collect_rule_locs_ok _ cap ls hls
    exact ⟨hok, by rw [hok]; exact hmap⟩
  · intro hmax hnone
    unfold gve_del_flow_rule
    rw [if_neg hmax, hnone]

def flowStW : GveFlowState :=
  { flow_rules_max := 4, flow_rules_cnt := 0, flow_rules := [] }

theorem gve_flow_rules_order_spec_witness :
    gve_del_flow_rule 0 flowStW 9 = (-EINVAL, flowStW) := by
  have h := (gve_flow_rules_order_spec 4 [] 0 0 flowStW 9).2.2
  exact h (by decide) (by decide)

/-- Claim C7 counterexample: with a zero advertised maximum (flow steering
unsupported) the list is empty, so location 3 is absent, yet delete
returns -EOPNOTSUPP rather than the -EINVAL the claim requires. -/
theorem gve_del_flow_rule_nonexistent_cex :
    gve_find_flow_rule_by_loc (gve_init_flow_state 0) 3 = none ∧
    gve_del_flow_rule 0 (gve_init_flow_state 0) 3 =
      (-EOPNOTSUPP, gve_init_flow_state 0) ∧
    (-EOPNOTSUPP : Int) ≠ -EINVAL := by
  refine ⟨rfl, rfl, by decide⟩

/-- Claim C10: after any sequence of add and delete operations from
bring-up, the rule counter equals the length of the rule list; a successful
add increments both by exactly one; a successful delete decrements both by
exactly one; a failed add or delete leaves the state unchanged; and the
count reported to management callers equals the number of stored rules. -/
theorem gve_flow_rules_cnt_spec (maxRules : Nat) (ops : List GveFlowOp)
    (d : Int) (a : Bool) (n : Nat) (f : EthtoolRxFlowSpec) (l : Nat) :
    (gve_apply_flow_ops (gve_init_flow_state maxRules) ops).flow_rules_cnt =
      (gve_apply_flow_ops (gve_init_flow_state maxRules) ops).flow_rules.length ∧
    ((gve_add_flow_rule d a n
        (gve_apply_flow_ops (gve_init_flow_state maxRules) ops) f).1 = 0 →
      (gve_add_flow_rule d a n
        (gve_apply_flow_ops (gve_init_flow_state maxRules) ops) f).2.flow_rules_cnt =
        (gve_apply_flow_ops (gve_init_flow_state maxRules) ops).flow_rules_cnt + 1 ∧
      (gve_add_flow_rule d a n
        (gve_apply_flow_ops (gve_init_flow_state maxRules) ops) f).2.flow_rules.length =
        (gve_apply_flow_ops (gve_init_flow_state maxRules) ops).flow_rules.length + 1) ∧
    ((gve_add_flow_rule d a n
        (gve_apply_flow_ops (gve_init_flow_state maxRules) ops) f).1 ≠ 0 →
      (gve_add_flow_rule d a n
        (gve_apply_flow_ops (gve_init_flow_state maxRules) ops) f).2 =
        gve_apply_flow_ops (gve_init_flow_state maxRules) ops) ∧
    ((gve_del_flow_rule d
        (gve_apply_flow_ops (gve_init_flow_state maxRules) ops) l).1 = 0 →
      (gve_del_flow_rule d
        (gve_apply_flow_ops (gve_init_flow_state maxRules) ops) l).2.flow_rules_cnt + 1 =
        (gve_apply_flow_ops (gve_init_flow_state maxRules) ops).flow_rules_cnt ∧
      (gve_del_flow_rule d
        (gve_apply_flow_ops (gve_init_flow_state maxRules) ops) l).2.flow_rules.length + 1 =
        (gve_apply_flow_ops (gve_init_flow_state maxRules) ops).flow_rules.length) ∧
    ((gve_del_flow_rule d
        (gve_apply_flow_ops (gve_init_flow_state maxRules) ops) l).1 ≠ 0 →
      (gve_del_flow_rule d
        (gve_apply_flow_ops (gve_init_flow_state maxRules) ops) l).2 =
        gve_apply_flow_ops (gve_init_flow_state maxRules) ops) ∧
    ((gve_apply_flow_ops (gve_init_flow_state maxRules) ops).flow_rules_max ≠ 0 →
      gve_get_rxnfc_rule_cnt (gve_apply_flow_ops (gve_init_flow_state maxRules) ops) =
        .ok (gve_apply_flow_ops (gve_init_flow_state maxRules) ops).flow_rules.length) := by
  have hinv := gve_flow_ops_inv ops (gve_init_flow_state maxRules)
    (gve_init_flow_inv maxRules)
  refine ⟨hinv.2, ?_, ?_, ?_, ?_, ?_⟩
  · intro h0
    obtain ⟨-, rule, -, hst⟩ :=
      (gve_add_flow_rule_cases d a n _ f).1 h0
    rw [hst]
    exact ⟨rfl, gve_flow_rules_insert_length rule _⟩
  · exact (gve_add_flow_rule_cases d a n _ f).2
  · intro h0
    obtain ⟨hsome, -, hst⟩ := (gve_del_flow_rule_cases d _ l).1 h0
    rw [hst]
    simp only [gve_flow_rules_del_rule]
    obtain ⟨r, hfind⟩ := Option.isSome_iff_exists.mp hsome
    have hfind2 : (gve_apply_flow_ops (gve_init_flow_state maxRules)
        ops).flow_rules.find? (fun x => x.loc == l) = some r := hfind
    have hmem := List.mem_of_find?_eq_some hfind2
    have hpr := List.find?_some hfind2
    have hlen := gve_eraseP_length (fun x => x.loc == l) _ ⟨r, hmem, hpr⟩
    have hc := hinv.2
    exact ⟨by omega, by omega⟩
  · exact (gve_del_flow_rule_cases d _ l).2
  · intro hmax
    unfold gve_get_rxnfc_rule_cnt
    rw [if_neg hmax, hinv.2]

def fspW : EthtoolRxFlowSpec :=
  { flow_type := TCP_V4_FLOW, ring_cookie := 0, location := 5,
    h_u := {}, m_u := {} }

theorem gve_flow_rules_cnt_spec_witness :
    (gve_add_flow_rule 0 true 4
        (gve_apply_flow_ops (gve_init_flow_state 4) []) fspW).2.flow_rules_cnt = 1 ∧
    (gve_add_flow_rule 0 true 4
        (gve_apply_flow_ops (gve_init_flow_state 4) []) fspW).2.flow_rules.length = 1 := by
  have h := (gve_flow_rules_cnt_spec 4 [] 0 true 4 fspW 0).2.1 (by decide)
  exact ⟨h.1, h.2⟩

/-- Claim C6 (amended): add rejects with -EOPNOTSUPP when the advertised
maximum is zero; with -ENOSPC when the counter has reached the maximum;
with -EEXIST when the location is occupied; and with -EEXIST when the
request is otherwise admissible (supported action, valid queue, recognized
flow type) but a rule with identical flow type, key and mask is stored.
On any error the local state is unchanged, and on success the device
command succeeded and the rule was inserted into the ordered list.  The
unamended claim asserted -EEXIST for every duplicate request; a duplicate
request with an unsupported action or an invalid queue index is instead
rejected with -EOPNOTSUPP or -EINVAL before the duplicate check. -/
theorem gve_add_flow_rule_spec (d : Int) (a : Bool) (n : Nat)
    (st : GveFlowState) (f : EthtoolRxFlowSpec) :
    (st.flow_rules_max = 0 → gve_add_flow_rule d a n st f = (-EOPNOTSUPP, st)) ∧
    (st.flow_rules_max ≠ 0 → st.flow_rules_max ≤ st.flow_rules_cnt →
      gve_add_flow_rule d a n st f = (-ENOSPC, st)) ∧
    (st.flow_rules_max ≠ 0 → st.flow_rules_cnt < st.flow_rules_max →
      (gve_find_flow_rule_by_loc st f.location).isSome = true →
      gve_add_flow_rule d a n st f = (-EEXIST, st)) ∧
    (∀ t, st.flow_rules_max ≠ 0 → st.flow_rules_cnt < st.flow_rules_max →
      gve_find_flow_rule_by_loc st f.location = none → a = true →
      f.ring_cookie ≠ RX_CLS_FLOW_DISC → f.ring_cookie % 2 ^ 32 < n →
      gve_flow_type_of (gveEthtoolFlowType f) = some t →
      gve_flow_rule_is_dup_rule st
        (gve_rule_from_fsp t (gveEthtoolFlowType f) f (f.ring_cookie % 2 ^ 32)) = true →
      gve_add_flow_rule d a n st f = (-EEXIST, st)) ∧
    ((gve_add_flow_rule d a n st f).1 ≠ 0 → (gve_add_flow_rule d a n st f).2 = st) ∧
    ((gve_add_flow_rule d a n st f).1 = 0 → d = 0 ∧
      ∃ rule, gve_add_flow_rule_info st n f = .ok rule ∧
        (gve_add_flow_rule d a n st f).2 = gve_flow_rules_add_rule st rule) := by
  refine ⟨?_, ?_, ?_, ?_,
    (gve_add_flow_rule_cases d a n st f).2, (gve_add_flow_rule_cases d a n st f).1⟩
  · intro h1
    unfold gve_add_flow_rule
    rw [if_pos h1]
  · intro h1 h2
    unfold gve_add_flow_rule
    rw [if_neg h1, if_pos h2]
  · intro h1 h2 h3
    unfold gve_add_flow_rule
    rw [if_neg h1, if_neg (by omega), if_pos h3]
  · intro t h1 h2 h3 h4 h5 h6 h7 h8
    have hinfo : gve_add_flow_rule_info st n f = .error (-EEXIST) := by
      unfold gve_add_flow_rule_info
      rw [if_neg h5, if_neg (by omega), h7]
      simp only
      rw [if_pos h8]
    unfold gve_add_flow_rule
    rw [if_neg h1, if_neg (by omega), if_neg (by simp [h3]), if_neg (by simp [h4]),
      hinfo]

def flowSpecKW : GveFlowSpec :=
  { src_ip := { w0 := 1 }, dst_ip := { w0 := 2 }, src_port := 3, dst_port := 4 }

def flowSpecMW : GveFlowSpec :=
  { src_ip := { w0 := 5 }, dst_ip := { w0 := 6 }, src_port := 7, dst_port := 8 }

def storedRuleC : GveFlowRule :=
  { loc := 1, flow_type := GVE_FLOW_TYPE_TCPV4, action := 0,
    key := flowSpecKW, mask := flowSpecMW }

def flowStCex : GveFlowState :=
  { flow_rules_max := 10, flow_rules_cnt := 1, flow_rules := [storedRuleC] }

def fspLoc1 : EthtoolRxFlowSpec :=
  { flow_type := TCP_V4_FLOW, ring_cookie := 0, location := 1,
    h_u := {}, m_u := {} }

theorem gve_add_flow_rule_spec_witness :
    gve_add_flow_rule 0 true 4 flowStCex fspLoc1 = (-EEXIST, flowStCex) := by
  have h := (gve_add_flow_rule_spec 0 true 4 flowStCex fspLoc1).2.2.1
  exact h (by decide) (by decide) (by decide)

def fspCex : EthtoolRxFlowSpec :=
  { flow_type := TCP_V4_FLOW, ring_cookie := RX_CLS_FLOW_DISC, location := 7,
    h_u := { ip4src := 1, ip4dst := 2, psrc := 3, pdst := 4 },
    m_u := { ip4src := 5, ip4dst := 6, psrc := 7, pdst := 8 } }

/-- Claim C6 counterexample: a request whose flow type, key and mask are
identical to a stored rule but whose action is the unsupported drop action;
the advertised maximum is nonzero, the counter is below it and the
requested location is free, so the claim requires -EEXIST, yet the call
returns -EOPNOTSUPP before the duplicate check. -/
theorem gve_add_flow_rule_cex :
    flowStCex.flow_rules_max ≠ 0 ∧
    flowStCex.flow_rules_cnt < flowStCex.flow_rules_max ∧
    gve_find_flow_rule_by_loc flowStCex fspCex.location = none ∧
    gve_flow_rule_is_dup_rule flowStCex
      (gve_rule_from_fsp GVE_FLOW_TYPE_TCPV4 (gveEthtoolFlowType fspCex) fspCex
        (fspCex.ring_cookie % 2 ^ 32)) = true ∧
    gve_add_flow_rule 0 true 4 flowStCex fspCex = (-EOPNOTSUPP, flowStCex) ∧
    (-EOPNOTSUPP : Int) ≠ -EEXIST := by
  decide

/-- Environment for gve_adminq_execute_cmd: the event-counter value read at
entry (compared against the producer counter), the environment of the inner
issue step, and the environment of the final kick-and-wait. -/
structure ExecEnv where
  tail0 : Nat
  issue : IssueEnv
  kick : KickEnv

/-- gve_adminq_execute_cmd: if the event counter read at entry differs from
the producer counter the call is rejected with -EINVAL; otherwise the
command is issued, an issue error is returned as is, and otherwise the
result of kicking and waiting on the updated queue is returned. -/
def gve_adminq_execute_cmd (env : ExecEnv) (st : AqState) (cmd : Nat) :
    Int × AqState :=
  if env.tail0 ≠ st.prodCnt then (-EINVAL, st)
  else if (gve_adminq_issue_cmd env.issue st cmd).1 ≠ 0 then
    ((gve_adminq_issue_cmd env.issue st cmd).1,
     (gve_adminq_issue_cmd env.issue st cmd).2.1)
  else
    ((gve_adminq_kick_and_wait env.kick
        (gve_adminq_issue_cmd env.issue st cmd).2.1.prodCnt
        (gve_adminq_issue_cmd env.issue st cmd).2.1.mask).1,
     (gve_adminq_issue_cmd env.issue st cmd).2.1)

/-- gve_adminq_execute_extended_cmd: a side DMA buffer (handle 0) is
allocated for the inner command; on allocation failure the call returns
-ENOMEM having allocated nothing; otherwise the assembled extended command
(opaque in this model, parameter extCmd) is executed and the buffer is
freed unconditionally before the error code is returned.  The last two
components are the ghost lists of allocated and freed buffer handles. -/
def gve_adminq_execute_extended_cmd (env : ExecEnv) (st : AqState)
    (allocOk : Bool) (extCmd : Nat) : Int × AqState × List Nat × List Nat :=
  if allocOk = false then (-ENOMEM, st, [], [])
  else ((gve_adminq_execute_cmd env st extCmd).1,
        (gve_adminq_execute_cmd env st extCmd).2, [0], [0])

/-- gve_adminq_configure_rss: a side buffer for the indirection table
(handle 0) is allocated when indir_size is nonzero, then one for the hash
key (handle 1) when key_size is nonzero; an allocation failure jumps to the
common exit with -ENOMEM; otherwise the assembled command (opaque in this
model, parameter rssCmd) is executed.  The common exit frees exactly the
buffers whose pointers are non-NULL, in allocation order.  The last two
components are the ghost lists of allocated and freed buffer handles. -/
def gve_adminq_configure_rss (env : ExecEnv) (st : AqState)
    (indirSize keySize : Nat) (indirOk keyOk : Bool) (rssCmd : Nat) :
    Int × AqState × List Nat × List Nat :=
  if indirSize ≠ 0 ∧ indirOk = false then (-ENOMEM, st, [], [])
  else if keySize ≠ 0 ∧ keyOk = false then
    (-ENOMEM, st, if indirSize ≠ 0 then [0] else [],
     if indirSize ≠ 0 then [0] else [])
  else
    ((gve_adminq_execute_cmd env st rssCmd).1,
     (gve_adminq_execute_cmd env st rssCmd).2,
     (if indirSize ≠ 0 then [0] else []) ++ (if keySize ≠ 0 then [1] else []),
     (if indirSize ≠ 0 then [0] else []) ++ (if keySize ≠ 0 then [1] else []))

/-- Claim C9: on every exit path of an extended-command execution and of an
RSS configuration — allocation failure, device-command failure or success —
the list of side DMA buffers freed before returning equals the list of side
DMA buffers allocated inside the call: no side buffer is leaked. -/
theorem gve_side_buffers_freed (env : ExecEnv) (st : AqState)
    (allocOk : Bool) (extCmd : Nat) (indirSize keySize : Nat)
    (indirOk keyOk : Bool) (rssCmd : Nat) :
    (gve_adminq_execute_extended_cmd env st allocOk extCmd).2.2.1 =
      (gve_adminq_execute_extended_cmd env st allocOk extCmd).2.2.2 ∧
    (gve_adminq_configure_rss env st indirSize keySize indirOk keyOk rssCmd).2.2.1 =
      (gve_adminq_configure_rss env st indirSize keySize indirOk keyOk rssCmd).2.2.2 := by
  unfold gve_adminq_execute_extended_cmd gve_adminq_configure_rss
  constructor
  · split_ifs <;> rfl
  · split_ifs <;> rfl
